import Mathlib

/-!
Verification of the normalization / diffing / notification pipeline of
`jira_tracker.py` (repository `jira-daily`).

The Python program manipulates loosely-typed JSON documents.  We embed the
JSON value universe as the inductive type `JVal` and translate each Python
function into a Lean function over `JVal`, modelling Python semantics
explicitly where it matters:

* `d.get(k, default)` on a dict is total; on a non-dict it raises
  `AttributeError` — modelled with `Except String`;
* `d[k]` raises `KeyError` when the key is missing;
* truthiness (`if x:`) is `pyTruthy`;
* `==` / `!=` compare numbers across `int` / `float` / `bool` — `pyEq`
  (for non-numeric containers we fall back to structural equality, which
  agrees with Python on everything the pipeline actually compares);
* f-string interpolation of a value is `pyRepr` (`None` prints as "None";
  decimal rendering of non-integral floats is abbreviated as the rational
  literal, which no claim inspects).

Side effects that do not influence the claims (console logging, the
one-shot diagnostic printers, the network calls themselves) are omitted;
functions that read ambient configuration (`JIRA_DOMAIN`, the wall clock)
take it as an explicit argument.
-/

namespace JiraTracker

/-- A JSON-ish Python value: `None`, `bool`, `int`, `float` (modelled as a
rational, the claims never exercise rounding), `str`, `list`, `dict`. -/
inductive JVal where
  | jnull : JVal
  | jbool (b : Bool) : JVal
  | jint (n : Int) : JVal
  | jfloat (q : Rat) : JVal
  | jstr (s : String) : JVal
  | jarr (xs : List JVal) : JVal
  | jobj (fs : List (String × JVal)) : JVal

mutual

/-- Structural equality on `JVal` (used as the fallback of `pyEq` and for
dict-key lookup). -/
def JVal.beq : JVal → JVal → Bool
  | .jnull, .jnull => true
  | .jbool a, .jbool b => a == b
  | .jint a, .jint b => a == b
  | .jfloat a, .jfloat b => a == b
  | .jstr a, .jstr b => a == b
  | .jarr xs, .jarr ys => JVal.beqList xs ys
  | .jobj xs, .jobj ys => JVal.beqObj xs ys
  | _, _ => false

def JVal.beqList : List JVal → List JVal → Bool
  | [], [] => true
  | x :: xs, y :: ys => JVal.beq x y && JVal.beqList xs ys
  | _, _ => false

def JVal.beqObj : List (String × JVal) → List (String × JVal) → Bool
  | [], [] => true
  | (k, v) :: xs, (l, w) :: ys => k == l && JVal.beq v w && JVal.beqObj xs ys
  | _, _ => false

end

/-- `isinstance(v, (int, float))` together with the numeric value.
In Python `bool` is a subclass of `int`, so `True` counts as `1`. -/
def pyNum : JVal → Option Rat
  | .jbool b => some (if b then 1 else 0)
  | .jint n => some (n : Rat)
  | .jfloat q => some q
  | _ => none

/-- Python truthiness of a value. -/
def pyTruthy : JVal → Bool
  | .jnull => false
  | .jbool b => b
  | .jint n => n != 0
  | .jfloat q => q != 0
  | .jstr s => s != ""
  | .jarr xs => !xs.isEmpty
  | .jobj fs => !fs.isEmpty

/-- Python `==`: numbers (including `bool`) compare by numeric value, all
other values structurally.  (Python also applies numeric comparison inside
nested containers; the pipeline never compares containers holding mixed
numeric types, so structural equality is faithful there.) -/
def pyEq (a b : JVal) : Bool :=
  match pyNum a, pyNum b with
  | some x, some y => x == y
  | none, none => JVal.beq a b
  | _, _ => false

/-- `str(v)` as used by f-string interpolation.  Non-integral floats are
rendered as rational literals instead of decimal notation — an abbreviation
no claim inspects; lists and dicts never reach an f-string in the claims. -/
def pyRepr : JVal → String
  | .jnull => "None"
  | .jbool b => if b then "True" else "False"
  | .jint n => toString n
  | .jfloat q => if q.den = 1 then toString q.num ++ ".0" else toString q
  | .jstr s => s
  | .jarr _ => "<list>"
  | .jobj _ => "<dict>"

/-- `d.get(k, default)` for a dict `d` given as its field list. -/
def dget (fs : List (String × JVal)) (k : String) (d : JVal) : JVal :=
  (fs.lookup k).getD d

/-- Python `v.get(k, default)`: total on dicts, `AttributeError` otherwise. -/
def pyGetD (v : JVal) (k : String) (d : JVal) : Except String JVal :=
  match v with
  | .jobj fs => .ok (dget fs k d)
  | _ => .error "AttributeError"

/-- Python `v.get(k)` (default `None`). -/
def pyGet1 (v : JVal) (k : String) : Except String JVal :=
  pyGetD v k .jnull

/-! ## Field extraction (`jira_tracker.py` lines 26–33 and 112–174) -/

/-- `STORY_POINTS_FIELDS` — the priority-ordered candidate field list. -/
def STORY_POINTS_FIELDS : List String :=
  ["customfield_10016", "customfield_10028", "customfield_10034",
   "customfield_10035", "customfield_10040", "story_points"]

/-- One step of the value test in `extract_story_points`:
`isinstance(val, (int, float)) and val > 0`. -/
def posNum (v : JVal) : Bool :=
  match pyNum v with
  | some q => 0 < q
  | none => false

/-- `int(val) if val == int(val) else val` for a positive numeric value. -/
def spConvert (v : JVal) : JVal :=
  match pyNum v with
  | some q => if q.den = 1 then .jint q.num else .jfloat q
  | none => v

/-- The `for field in STORY_POINTS_FIELDS:` loop of `extract_story_points`. -/
def sp_scan : List String → List (String × JVal) → JVal
  | [], _ => .jnull
  | f :: rest, fd =>
    let val := dget fd f .jnull
    if posNum val then spConvert val else sp_scan rest fd

/-- `extract_story_points(fields)` (lines 112–118): the first candidate field
whose value is a **positive number** wins; all other values (missing, zero,
negative, non-numeric) are skipped; returns `None` when no candidate
qualifies. -/
def extract_story_points (fields : List (String × JVal)) : JVal :=
  sp_scan STORY_POINTS_FIELDS fields

/-- `extract_sprint_name(fields)` (lines 138–148). -/
def extract_sprint_name (fields : List (String × JVal)) : JVal :=
  let sprint_data := dget fields "customfield_10020" .jnull
  if !pyTruthy sprint_data then .jnull
  else
    let sprint_data :=
      match sprint_data with
      | .jarr xs => xs.getLast?.getD .jnull
      | v => v
    match sprint_data with
    | .jobj fs => dget fs "name" .jnull
    | _ => .jnull

/-- `extract_epic(fields)` (lines 151–173).  Returns the epic dict
(`jobj [("key", …), ("summary", …)]`) or `None`; raises (`Except.error`)
when a truthy `parent` value is malformed, exactly where Python's `.get`
chain would raise `AttributeError`: `parent.get` needs `parent` to be a
dict, and each `.get(…, {})` default in the chain needs the looked-up value
(when present) to be a dict. -/
def extract_epic (fields : List (String × JVal)) : Except String JVal :=
  let epic_link := dget fields "customfield_10014" .jnull
  let legacy : JVal :=
    if pyTruthy epic_link then .jobj [("key", epic_link), ("summary", epic_link)]
    else .jnull
  let parent := dget fields "parent" .jnull
  if pyTruthy parent then
    match parent with
    | .jobj pd =>
      match dget pd "fields" (.jobj []) with
      | .jobj pf =>
        match dget pf "issuetype" (.jobj []) with
        | .jobj itf =>
          if pyEq (dget itf "name" (.jstr "")) (.jstr "Epic") then
            let pk := dget pd "key" .jnull
            .ok (.jobj [("key", pk), ("summary", dget pf "summary" pk)])
          else .ok legacy
        | _ => .error "AttributeError"
      | _ => .error "AttributeError"
    | _ => .error "AttributeError"
  else .ok legacy

/-! ## Normalization (`normalize_issue`, lines 179–204) -/

/-- The normalized record returned by `normalize_issue`.  Field values stay
in the `JVal` universe because Python puts whatever it extracted into the
result dict. -/
structure Issue where
  key : JVal
  summary : JVal
  status : JVal
  issuetype : JVal
  assignee : JVal
  reporter : JVal
  story_points : JVal
  sprint : JVal
  epic : JVal
  link : String

/-- `assignee.get("displayName") if assignee else None` (line 198 / 199). -/
def displayNameOf (v : JVal) : Except String JVal :=
  if pyTruthy v then
    match v with
    | .jobj d => .ok (dget d "displayName" .jnull)
    | _ => .error "AttributeError"
  else .ok .jnull

/-- `normalize_issue(issue)` (lines 179–204).  `domain` stands for the
module-level `JIRA_DOMAIN`; the one-shot story-point diagnostic print is
omitted.  An `Except.error` marks each place the Python code raises:
`fields.get(…)` on a non-dict `fields` value, the `status` / `issuetype`
`.get`-chains on present non-dict values, `assignee.get` / `reporter.get`
on truthy non-dicts, the `parent` chain inside `extract_epic`, and the
`issue["key"]` subscript (`KeyError`).  The embedding checks these in a
slightly different order than CPython evaluates them, which can change
*which* error a doubly-malformed record raises but not *whether* one is
raised. -/
def normalize_issue (domain : String) (issue : List (String × JVal)) :
    Except String Issue :=
  match dget issue "fields" (.jobj []) with
  | .jobj fd =>
    let assigneeV := dget fd "assignee" .jnull
    let reporterV := dget fd "reporter" .jnull
    let sprint := extract_sprint_name fd
    match extract_epic fd with
    | .error e => .error e
    | .ok epic =>
      let sp := extract_story_points fd
      match issue.lookup "key" with
      | none => .error "KeyError"
      | some keyV =>
        match dget fd "status" (.jobj []) with
        | .jobj sfs =>
          match dget fd "issuetype" (.jobj []) with
          | .jobj itfs =>
            match displayNameOf assigneeV with
            | .error e => .error e
            | .ok assigneeName =>
              match displayNameOf reporterV with
              | .error e => .error e
              | .ok reporterName =>
                .ok { key := keyV,
                      summary := dget fd "summary" (.jstr "Sem resumo"),
                      status := dget sfs "name" (.jstr "Desconhecido"),
                      issuetype := dget itfs "name" (.jstr ""),
                      assignee := assigneeName, reporter := reporterName,
                      story_points := sp, sprint := sprint, epic := epic,
                      link := "https://" ++ domain ++ ".atlassian.net/browse/" ++
                        pyRepr keyV }
          | _ => .error "AttributeError"
        | _ => .error "AttributeError"
  | _ => .error "AttributeError"

/-! ## Persisted state (`load_last_state`, lines 211–218) -/

/-- `load_last_state()` (lines 211–218).  The file system is abstracted as
`Option (List Nat)` — the raw bytes of the snapshot file, when it exists —
and the `utf-8` codec (`open(..., encoding="utf-8")` + `f.read()` inside
`json.load`) and the `json` parser are explicit collaborator arguments,
since only their success/failure behaviour matters.  The `try` block
catches **only** `json.JSONDecodeError` (line 216): an absent file and a
JSON parse failure both yield the empty dict, but a decoding failure on an
existing file (a corrupt, non-UTF-8 snapshot — Python's
`UnicodeDecodeError`) is not caught and propagates to the caller, modelled
by `Except.error`.  OS-level errors from `open` itself lie outside the
file-content abstraction. -/
def load_last_state (file : Option (List Nat))
    (utf8Decode : List Nat → Except String String)
    (jsonLoad : String → Except String JVal) : Except String JVal :=
  match file with
  | none => .ok (.jobj [])
  | some bytes =>
    match utf8Decode bytes with
    | .error e => .error e
    | .ok content =>
      match jsonLoad content with
      | .ok v => .ok v
      | .error _ => .ok (.jobj [])

/-! ## Change detection (`detect_changes`, lines 230–274)

The Python function appends to a `changes` list under four independent
conditionals, one per field, in the fixed order status / assignee /
story points / sprint; the result is therefore the concatenation of the
four per-field contributions, which we name individually. -/

/-- `v is None`. -/
def isNone : JVal → Bool
  | .jnull => true
  | _ => false

/-- Lines 237–240: the status descriptor.  Always the transition form; the
rendered previous value is `previous.get('status', '?')`. -/
def statusChanges (current : Issue) (previous : List (String × JVal)) :
    List String :=
  if !pyEq current.status (dget previous "status" .jnull) then
    ["🔄 *Status:* `" ++ pyRepr (dget previous "status" (.jstr "?")) ++
     "` ➡️ `" ++ pyRepr current.status ++ "`"]
  else []

/-- Lines 242–250: the assignee descriptor (presence tested by truthiness). -/
def assigneeChanges (current : Issue) (previous : List (String × JVal)) :
    List String :=
  let curr := current.assignee
  let prev := dget previous "assignee" .jnull
  if !pyEq curr prev then
    if !pyTruthy prev then ["👤 *Atribuído a:* `" ++ pyRepr curr ++ "`"]
    else if !pyTruthy curr then
      ["👤 *Responsável removido* (era `" ++ pyRepr prev ++ "`)"]
    else ["👤 *Responsável:* `" ++ pyRepr prev ++ "` ➡️ `" ++ pyRepr curr ++ "`"]
  else []

/-- Lines 252–260: the story-points descriptor (presence tested with
`is None`). -/
def spChanges (current : Issue) (previous : List (String × JVal)) :
    List String :=
  let curr := current.story_points
  let prev := dget previous "story_points" .jnull
  if !pyEq curr prev then
    if isNone prev then ["🎯 *Story Points definidos:* `" ++ pyRepr curr ++ "`"]
    else if isNone curr then
      ["🎯 *Story Points removidos* (eram `" ++ pyRepr prev ++ "`)"]
    else ["🎯 *Story Points:* `" ++ pyRepr prev ++ "` ➡️ `" ++ pyRepr curr ++ "`"]
  else []

/-- Lines 262–272: the sprint descriptor (presence tested by truthiness;
two unequal falsy values fall through to the transition form). -/
def sprintChanges (current : Issue) (previous : List (String × JVal)) :
    List String :=
  let curr := current.sprint
  let prev := dget previous "sprint" .jnull
  if !pyEq curr prev then
    if pyTruthy curr && !pyTruthy prev then
      ["📌 *Entrou na sprint:* `" ++ pyRepr curr ++ "`"]
    else if !pyTruthy curr && pyTruthy prev then
      ["📌 *Saiu da sprint* `" ++ pyRepr prev ++ "` → backlog"]
    else ["📌 *Sprint:* `" ++ pyRepr prev ++ "` ➡️ `" ++ pyRepr curr ++ "`"]
  else []

/-- `detect_changes(current, previous)` (lines 230–274): the sequential
appends under the four field conditionals, i.e. the concatenation of the
four per-field contributions in source order. -/
def detect_changes (current : Issue) (previous : List (String × JVal)) :
    List String :=
  statusChanges current previous ++ assigneeChanges current previous ++
    spChanges current previous ++ sprintChanges current previous

/-! ## Classification (the `for raw in raw_issues:` loop of `main`,
lines 602–637) -/

/-- A Python dict keyed by arbitrary values (`last_state` / `current_state`
entries, `issues_map`): an association list in insertion order.  Updating an
existing key keeps its position, as CPython dicts do. -/
def dictUpd {β : Type} (m : List (JVal × β)) (k : JVal) (v : β) :
    List (JVal × β) :=
  if m.any (fun e => JVal.beq e.1 k) then
    m.map (fun e => if JVal.beq e.1 k then (e.1, v) else e)
  else m ++ [(k, v)]

/-- Dict lookup (`m[k]` / `k in m`). -/
def dictFind {β : Type} (m : List (JVal × β)) (k : JVal) : Option β :=
  (m.find? (fun e => JVal.beq e.1 k)).map (fun e => e.2)

/-- The snapshot view stored for each key (lines 614–621). -/
def issueStateEntry (issue : Issue) : List (String × JVal) :=
  [("status", issue.status), ("summary", issue.summary),
   ("assignee", issue.assignee), ("story_points", issue.story_points),
   ("sprint", issue.sprint), ("epic", issue.epic)]

/-- A classified entry: the `{"issue": …}` / `{"issue", "changes",
"prev_status"}` dicts appended to the buckets.  For new items Python omits
the `changes` / `prev_status` keys; every downstream read goes through
`.get` (or a truthiness test), so the omission is modelled by `[]` /
`None`. -/
structure Item where
  issue : Issue
  changes : List String
  prev_status : JVal

/-- The loop state: the three output buckets plus `current_state`. -/
structure RunClass where
  new_sprint : List Item
  new_backlog : List Item
  changed : List Item
  current_state : List (JVal × List (String × JVal))

/-- One iteration of the classification loop (lines 609–637).  `last` is
`last_state`, which the loop never mutates. -/
def classifyStep (last : List (JVal × List (String × JVal)))
    (acc : RunClass) (issue : Issue) : RunClass :=
  let key := issue.key
  let acc := { acc with
    current_state := dictUpd acc.current_state key (issueStateEntry issue) }
  match dictFind last key with
  | none =>
    if pyTruthy issue.sprint then
      { acc with new_sprint := acc.new_sprint ++ [⟨issue, [], .jnull⟩] }
    else
      { acc with new_backlog := acc.new_backlog ++ [⟨issue, [], .jnull⟩] }
  | some prev =>
    let diffs := detect_changes issue prev
    if !diffs.isEmpty then
      { acc with changed :=
          acc.changed ++ [⟨issue, diffs, dget prev "status" .jnull⟩] }
    else acc

/-- The whole classification loop over the normalized records. -/
def runClassify (issues : List Issue)
    (last : List (JVal × List (String × JVal))) : RunClass :=
  issues.foldl (classifyStep last) ⟨[], [], [], []⟩

/-! ## Slack Block Kit formatting (lines 379–522)

A Slack block is one of the four shapes the program emits; a `bsection`
optionally carries the `Abrir` button accessory `(text, url, action_id)`. -/

inductive Block where
  | bheader (text : String) : Block
  | bcontext (text : String) : Block
  | bdivider : Block
  | bsection (text : String) (accessory : Option (String × String × String)) : Block
deriving DecidableEq

structure Payload where
  text : String
  blocks : List Block
deriving DecidableEq

/-- Python `needle in hay` on strings. -/
def pyContains (hay needle : String) : Bool :=
  decide (needle.toList <:+: hay.toList)

/-- `_issue_card_block(issue, changes, prev_status)` (lines 379–430).
`changes = []` and `prev_status = None` stand for the omitted arguments. -/
def issue_card_block (issue : Issue) (changes : List String)
    (prev_status : JVal) : Block :=
  let assignee := if pyTruthy issue.assignee then issue.assignee
    else .jstr "Sem responsável"
  let reporter := issue.reporter
  let sprint := if pyTruthy issue.sprint then issue.sprint else .jstr "Backlog"
  let sp := issue.story_points
  let lines := ["*<" ++ issue.link ++ "|" ++ pyRepr issue.key ++ ">* — " ++
      pyRepr issue.summary,
    "👤 `" ++ pyRepr assignee ++ "`"]
  let lines := if pyTruthy reporter && !pyEq reporter assignee then
      lines ++ ["✍️ `" ++ pyRepr reporter ++ "`"]
    else lines
  let statusLine :=
    if pyTruthy prev_status && !pyEq prev_status issue.status then
      "🔹 Status: `" ++ pyRepr issue.status ++ "`  _(antes: `" ++
        pyRepr prev_status ++ "`)_"
    else if pyTruthy prev_status && pyEq prev_status issue.status then
      "🔹 Status: `" ++ pyRepr issue.status ++ "`  _(sem mudança de status)_"
    else "🔹 Status: `" ++ pyRepr issue.status ++ "`"
  let lines := lines ++ [statusLine]
  let sp_text := if pyTruthy sp then "🎯 `" ++ pyRepr sp ++ " pts`" else ""
  let sprint_text := "📌 `" ++ pyRepr sprint ++ "`"
  let meta_line := if sp_text = "" then sprint_text
    else sp_text ++ "  |  " ++ sprint_text
  let lines := lines ++ [meta_line]
  let non_status := changes.filter (fun c => !pyContains c "Status:")
  let lines := if !changes.isEmpty && !non_status.isEmpty then
      lines ++ [String.intercalate "\n" non_status]
    else lines
  Block.bsection (String.intercalate "\n" lines)
    (some ("Abrir", issue.link, "btn_" ++ pyRepr issue.key))

/-- The group label of `_group_by_epic` (lines 433–447).  Python indexes
`epic['summary']` / `epic['key']` directly; for the dicts `extract_epic`
produces both keys exist, so the (unreachable) `KeyError` is modelled as
`None`. -/
def pyIndex (v : JVal) (k : String) : JVal :=
  match v with
  | .jobj fs => dget fs k .jnull
  | _ => .jnull

def epicGroupLabel (issue : Issue) : String :=
  let epic := issue.epic
  if pyTruthy epic then
    pyRepr (pyIndex epic "summary") ++ " (" ++ pyRepr (pyIndex epic "key") ++ ")"
  else "— Sem épico"

/-- `defaultdict(list)` grouping preserving first-seen label order. -/
def groupInsert (gs : List (String × List Item)) (label : String) (it : Item) :
    List (String × List Item) :=
  if gs.any (fun g => g.1 == label) then
    gs.map (fun g => if g.1 == label then (g.1, g.2 ++ [it]) else g)
  else gs ++ [(label, [it])]

/-- `_group_by_epic(items)` (lines 433–447). -/
def group_by_epic (items : List Item) : List (String × List Item) :=
  items.foldl (fun gs it => groupInsert gs (epicGroupLabel it.issue) it) []

/-- The designated narrative-failure sentinel (line 372). -/
def GEMINI_ERROR_SENTINEL : String := "__GEMINI_ERROR__"

/-- The fixed three-block header of `build_slack_payload` (lines 460–470). -/
def headerBlocks (now : String) (total : Nat) : List Block :=
  [Block.bheader "🔔 Resumo Diário do Jira",
   Block.bcontext ("📅 " ++ now ++ "  |  *" ++ toString total ++
     " alteração(ões) detectada(s)*"),
   Block.bdivider]

/-- The narrative portion of `build_slack_payload` (lines 472–483):
`if ai_summary and ai_summary != "__GEMINI_ERROR__"` renders the truncated
prose block plus a divider; `elif ai_summary == "__GEMINI_ERROR__"` renders
the inline warning; otherwise (`None` or `""`) nothing. -/
def narrativeBlocks (ai_summary : Option String) : List Block :=
  match ai_summary with
  | none => []
  | some s =>
    if s ≠ "" ∧ s ≠ GEMINI_ERROR_SENTINEL then
      let summary_text := if s.length > 2900 then s.take 2900 ++ "…" else s
      [Block.bsection ("🤖 *Análise do Gemini*\n\n" ++ summary_text) none,
       Block.bdivider]
    else if s = GEMINI_ERROR_SENTINEL then
      [Block.bcontext "_⚠️ Gemini não respondeu (erro na API). As listas abaixo são a referência completa._"]
    else []

/-- `_add_section(items, section_title, show_changes)` (lines 485–501). -/
def sectionBlocks (items : List Item) (section_title : String)
    (show_changes : Bool) : List Block :=
  if items.isEmpty then []
  else
    [Block.bsection section_title none] ++
    (group_by_epic items).flatMap (fun g =>
      Block.bcontext ("📌 *Épico: " ++ g.1 ++ "*") ::
      g.2.map (fun it =>
        issue_card_block it.issue (if show_changes then it.changes else [])
          (if show_changes then it.prev_status else .jnull))) ++
    [Block.bdivider]

/-- The epic section (lines 503–508). -/
def epicSectionBlocks (new_epics : List Issue) : List Block :=
  if new_epics.isEmpty then []
  else
    [Block.bsection ("*📌 Novos Épicos (" ++ toString new_epics.length ++ ")*")
      none] ++
    new_epics.map (fun e => issue_card_block e [] .jnull) ++
    [Block.bdivider]

/-- The classified listings plus the fixed footer (lines 503–517): new
epics, new-in-sprint, new-in-backlog, changed, footer context block.
Independent of the narrative. -/
def listingBlocks (new_sprint new_backlog changed : List Item)
    (new_epics : List Issue) : List Block :=
  epicSectionBlocks new_epics ++
  sectionBlocks new_sprint
    ("*🆕 Novos na Sprint (" ++ toString new_sprint.length ++ ")*") false ++
  sectionBlocks new_backlog
    ("*📋 Novos no Backlog (" ++ toString new_backlog.length ++ ")*") false ++
  sectionBlocks changed
    ("*🔄 Atualizados (" ++ toString changed.length ++ ")*") true ++
  [Block.bcontext "_Monitoramento automático via GitHub Actions_"]

/-- `build_slack_payload(new_sprint, new_backlog, changed, new_epics,
ai_summary)` (lines 450–522).  `now` stands for the wall-clock timestamp
string computed on line 457. -/
def build_slack_payload (now : String)
    (new_sprint new_backlog changed : List Item) (new_epics : List Issue)
    (ai_summary : Option String) : Payload :=
  let total := new_sprint.length + new_backlog.length + changed.length +
    new_epics.length
  { text := "🔔 Resumo Diário do Jira — " ++ toString total ++ " alteração(ões)",
    blocks := headerBlocks now total ++ narrativeBlocks ai_summary ++
      listingBlocks new_sprint new_backlog changed new_epics }

/-! ## Webhook pagination (`_chunk_blocks` / `send_alert`, lines 529–580)

The Python functions read the module constant `SLACK_MAX_BLOCKS = 48` and
`send_alert` hard-codes the 3-block header; the embedding takes both as
explicit arguments and specializes them below. -/

def SLACK_MAX_BLOCKS : Nat := 48

/-- The body of the `for block in content:` loop (lines 543–547). -/
def chunkStep (maxBlocks : Nat) (header_blocks : List Block)
    (st : List (List Block) × List Block) (b : Block) :
    List (List Block) × List Block :=
  if st.2.length + 1 > maxBlocks then (st.1 ++ [st.2], header_blocks ++ [b])
  else (st.1, st.2 ++ [b])

/-- `_chunk_blocks(blocks, header_blocks)` (lines 533–550), generalized over
the block cap. -/
def chunk_blocks (maxBlocks : Nat) (blocks header_blocks : List Block) :
    List (List Block) :=
  let content := blocks.drop header_blocks.length
  let st := content.foldl (chunkStep maxBlocks header_blocks) ([], header_blocks)
  if st.2.isEmpty then st.1 else st.1 ++ [st.2]

/-- The pagination performed by `send_alert(payload)` (lines 560–573): the
list of page payloads it posts, one HTTP POST per element (the network call
itself and the per-page error logging are external).  Generalized over the
cap and the header size; the source uses `SLACK_MAX_BLOCKS` and `3`. -/
def send_pages (maxBlocks headerCount : Nat) (payload : Payload) :
    List Payload :=
  let blocks := payload.blocks
  let header_blocks := blocks.take headerCount
  if blocks.length ≤ maxBlocks then [payload]
  else
    let chunked := chunk_blocks maxBlocks blocks header_blocks
    chunked.enum.map (fun pr =>
      { text := payload.text ++
          (if chunked.length > 1 then
            " (parte " ++ toString (pr.1 + 1) ++ "/" ++
              toString chunked.length ++ ")"
          else ""),
        blocks := pr.2 })

/-- `send_alert`'s pagination with the source's constants. -/
def send_alert_pages (payload : Payload) : List Payload :=
  send_pages SLACK_MAX_BLOCKS 3 payload

/-! ## Query merging (`get_all_issues`, lines 67–105) -/

/-- A raw Jira issue: the JSON document a query returns. -/
abbrev RawIssue := List (String × JVal)

/-- One query's `for i in …: issues_map[i["key"]] = i` loop inside its
`try:` block (lines 76–93): each record is written into the map under its
key, overwriting an existing entry; a record without a `"key"` raises
`KeyError`, which the enclosing `except` catches, leaving the map as filled
so far and letting the run continue with the next query. -/
def fill_map (m : List (JVal × RawIssue)) (issues : List RawIssue) :
    List (JVal × RawIssue) :=
  match issues with
  | [] => m
  | i :: rest =>
    match i.lookup "key" with
    | some k => fill_map (dictUpd m k i) rest
    | none => m

/-- The epic query handling (lines 96–103): all records normalized; any
exception discards the whole batch (`new_epics` keeps its initial `[]`). -/
def epicsOf (domain : String) (epic_issues : List RawIssue) : List Issue :=
  match epic_issues.mapM (normalize_issue domain) with
  | .ok l => l
  | .error _ => []

/-- `get_all_issues()` (lines 67–105) given the three query results:
`(list(issues_map.values()), new_epics)`.  The sprint query fills the map
first, then the backlog query; the epic query is normalized separately and
never merged into the map. -/
def get_all_issues_model (domain : String)
    (sprint_issues backlog_issues epic_issues : List RawIssue) :
    List RawIssue × List Issue :=
  ((fill_map (fill_map [] sprint_issues) backlog_issues).map (fun e => e.2),
   epicsOf domain epic_issues)

/-! ## The tail of `main` (lines 639–660) -/

/-- What `main` does after classification: the optional payload it builds
(and posts via `send_alert` — `none` means neither happens) and the state it
persists.  Lines 639–643: when all three buckets are empty the run prints a
notice, saves `current_state` and returns before any payload is built;
otherwise (lines 645–660) the payload is built, sent, and the same state is
saved. -/
structure RunOutcome where
  payload : Option Payload
  saved_state : List (JVal × List (String × JVal))

def main_after_classify (r : RunClass) (new_epics : List Issue)
    (now : String) (ai_summary : Option String) : RunOutcome :=
  if r.new_sprint.isEmpty && r.new_backlog.isEmpty && r.changed.isEmpty then
    ⟨none, r.current_state⟩
  else
    ⟨some (build_slack_payload now r.new_sprint r.new_backlog r.changed
        new_epics ai_summary),
      r.current_state⟩

/-! ## Characterization artifacts

Definitions used only to *state* properties of the embedding (not part of
the translated program). -/

/-- Raw records on which `normalize_issue` does not raise and extracts a
non-null key, summary and status: the record has a non-null `key`; its
`fields` value (when present) is a dict; `status` / `issuetype` (when
present) are dicts with `status.name` non-null when present; a truthy
`assignee` / `reporter` is a dict; a present `summary` is non-null; and a
truthy `parent` is a dict whose `fields` (and its `issuetype`) are dicts. -/
def epicOk (fd : List (String × JVal)) : Bool :=
  let parent := dget fd "parent" .jnull
  !pyTruthy parent ||
    (match parent with
     | .jobj pd =>
       (match dget pd "fields" (.jobj []) with
        | .jobj pf =>
          (match dget pf "issuetype" (.jobj []) with
           | .jobj _ => true
           | _ => false)
        | _ => false)
     | _ => false)

def wf_raw (issue : List (String × JVal)) : Bool :=
  (match issue.lookup "key" with
   | some k => !isNone k
   | none => false) &&
  (match dget issue "fields" (.jobj []) with
   | .jobj fd =>
     (match dget fd "status" (.jobj []) with
      | .jobj sfs => !isNone (dget sfs "name" (.jstr "Desconhecido"))
      | _ => false) &&
     (match dget fd "issuetype" (.jobj []) with
      | .jobj _ => true
      | _ => false) &&
     (!pyTruthy (dget fd "assignee" .jnull) ||
       (match dget fd "assignee" .jnull with
        | .jobj _ => true
        | _ => false)) &&
     (!pyTruthy (dget fd "reporter" .jnull) ||
       (match dget fd "reporter" .jnull with
        | .jobj _ => true
        | _ => false)) &&
     !isNone (dget fd "summary" (.jstr "Sem resumo")) &&
     epicOk fd
   | _ => false)

/-- The four ways the classification loop treats one record. -/
inductive Classification where
  | newInSprint : Classification
  | newInBacklog : Classification
  | changedRec : Classification
  | unchangedRec : Classification
deriving DecidableEq

/-- How one record is classified, as a function of the record and the
(immutable) previous snapshot — read off the branch structure of the loop
body (lines 623–637). -/
def classifyRecord (last : List (JVal × List (String × JVal)))
    (i : Issue) : Classification :=
  match dictFind last i.key with
  | none => if pyTruthy i.sprint then .newInSprint else .newInBacklog
  | some prev =>
    if !(detect_changes i prev).isEmpty then .changedRec else .unchangedRec

/-- What one record contributes to `new_sprint`. -/
def nsAdd (last : List (JVal × List (String × JVal))) (i : Issue) :
    List Item :=
  match dictFind last i.key with
  | none => if pyTruthy i.sprint then [⟨i, [], .jnull⟩] else []
  | some _ => []

/-- What one record contributes to `new_backlog`. -/
def nbAdd (last : List (JVal × List (String × JVal))) (i : Issue) :
    List Item :=
  match dictFind last i.key with
  | none => if pyTruthy i.sprint then [] else [⟨i, [], .jnull⟩]
  | some _ => []

/-- What one record contributes to `changed`. -/
def chAdd (last : List (JVal × List (String × JVal))) (i : Issue) :
    List Item :=
  match dictFind last i.key with
  | none => []
  | some prev =>
    let diffs := detect_changes i prev
    if !diffs.isEmpty then [⟨i, diffs, dget prev "status" .jnull⟩] else []

/-! ## General lemmas about the embedding -/

mutual

theorem JVal.beq_refl : ∀ v : JVal, JVal.beq v v = true
  | .jnull => rfl
  | .jbool _ => by simp [JVal.beq]
  | .jint _ => by simp [JVal.beq]
  | .jfloat _ => by simp [JVal.beq]
  | .jstr _ => by simp [JVal.beq]
  | .jarr xs => by simp [JVal.beq, JVal.beqList_refl xs]
  | .jobj fs => by simp [JVal.beq, JVal.beqObj_refl fs]

theorem JVal.beqList_refl : ∀ xs : List JVal, JVal.beqList xs xs = true
  | [] => rfl
  | x :: xs => by simp [JVal.beqList, JVal.beq_refl x, JVal.beqList_refl xs]

theorem JVal.beqObj_refl : ∀ xs : List (String × JVal), JVal.beqObj xs xs = true
  | [] => rfl
  | (k, v) :: xs => by
      simp [JVal.beqObj, JVal.beq_refl v, JVal.beqObj_refl xs]

end

mutual

theorem JVal.eq_of_beq : ∀ a b : JVal, JVal.beq a b = true → a = b
  | .jnull, b, h => by cases b <;> simp_all [JVal.beq]
  | .jbool _, b, h => by cases b <;> simp_all [JVal.beq]
  | .jint _, b, h => by cases b <;> simp_all [JVal.beq]
  | .jfloat _, b, h => by cases b <;> simp_all [JVal.beq]
  | .jstr _, b, h => by cases b <;> simp_all [JVal.beq]
  | .jarr xs, b, h => by
      cases b <;> simp_all [JVal.beq]
      exact JVal.eqList_of_beq xs _ h
  | .jobj fs, b, h => by
      cases b <;> simp_all [JVal.beq]
      exact JVal.eqObj_of_beq fs _ h

theorem JVal.eqList_of_beq : ∀ xs ys : List JVal, JVal.beqList xs ys = true → xs = ys
  | [], [], _ => rfl
  | [], _ :: _, h => by simp [JVal.beqList] at h
  | _ :: _, [], h => by simp [JVal.beqList] at h
  | x :: xs, y :: ys, h => by
      simp only [JVal.beqList, Bool.and_eq_true] at h
      rw [JVal.eq_of_beq x y h.1, JVal.eqList_of_beq xs ys h.2]

theorem JVal.eqObj_of_beq :
    ∀ xs ys : List (String × JVal), JVal.beqObj xs ys = true → xs = ys
  | [], [], _ => rfl
  | [], _ :: _, h => by simp [JVal.beqObj] at h
  | _ :: _, [], h => by simp [JVal.beqObj] at h
  | (k, v) :: xs, (l, w) :: ys, h => by
      simp only [JVal.beqObj, Bool.and_eq_true, beq_iff_eq] at h
      rw [h.1.1, JVal.eq_of_beq v w h.1.2, JVal.eqObj_of_beq xs ys h.2]

end

theorem JVal.beq_iff {a b : JVal} : JVal.beq a b = true ↔ a = b :=
  ⟨JVal.eq_of_beq a b, fun h => h ▸ JVal.beq_refl a⟩

instance : DecidableEq JVal := fun a b =>
  decidable_of_iff (JVal.beq a b = true) JVal.beq_iff

theorem JVal.beq_eq_decide (a b : JVal) : JVal.beq a b = decide (a = b) := by
  by_cases h : a = b
  · simp [h, JVal.beq_refl]
  · simpa [h] using fun hb => h (JVal.eq_of_beq a b hb)

theorem pyEq_refl (v : JVal) : pyEq v v = true := by
  unfold pyEq
  cases hv : pyNum v <;> simp [JVal.beq_refl]

theorem isNone_iff {v : JVal} : isNone v = true ↔ v = .jnull := by
  cases v <;> simp [isNone]

/-! ### Python-dict lemmas -/

theorem dictFind_nil {β : Type} (k : JVal) : dictFind ([] : List (JVal × β)) k = none := rfl

theorem dictFind_cons_pos {β : Type} (e : JVal × β) (m : List (JVal × β))
    (k : JVal) (h : JVal.beq e.1 k = true) :
    dictFind (e :: m) k = some e.2 := by
  unfold dictFind
  rw [List.find?_cons]
  simp [h]

theorem dictFind_cons_neg {β : Type} (e : JVal × β) (m : List (JVal × β))
    (k : JVal) (h : JVal.beq e.1 k = false) :
    dictFind (e :: m) k = dictFind m k := by
  unfold dictFind
  rw [List.find?_cons]
  simp [h]

theorem beq_false_of_ne {a b : JVal} (h : a ≠ b) : JVal.beq a b = false := by
  rw [JVal.beq_eq_decide]
  simpa using h

theorem dictFind_upd_map {β : Type} (m : List (JVal × β)) (k k' : JVal) (v : β)
    (hne : k' ≠ k) :
    dictFind (m.map fun e => if JVal.beq e.1 k then (e.1, v) else e) k' =
      dictFind m k' := by
  induction m with
  | nil => rfl
  | cons e m ih =>
    rw [List.map_cons]
    by_cases h1 : JVal.beq e.1 k = true
    · have he : e.1 = k := JVal.eq_of_beq _ _ h1
      have h2 : JVal.beq e.1 k' = false := beq_false_of_ne (by rw [he]; exact Ne.symm hne)
      rw [if_pos h1, dictFind_cons_neg (e.1, v) _ _ h2, dictFind_cons_neg e _ _ h2, ih]
    · rw [if_neg h1]
      by_cases h2 : JVal.beq e.1 k' = true
      · rw [dictFind_cons_pos e _ _ h2, dictFind_cons_pos e _ _ h2]

      · rw [dictFind_cons_neg e _ _ (by simpa using h2),
          dictFind_cons_neg e _ _ (by simpa using h2), ih]

theorem dictFind_upd_map_self {β : Type} (m : List (JVal × β)) (k : JVal) (v : β)
    (hmem : m.any (fun e => JVal.beq e.1 k) = true) :
    dictFind (m.map fun e => if JVal.beq e.1 k then (e.1, v) else e) k =
      some v := by
  induction m with
  | nil => simp at hmem
  | cons e m ih =>
    simp only [List.any_cons, Bool.or_eq_true] at hmem
    rw [List.map_cons]
    by_cases h1 : JVal.beq e.1 k = true
    · rw [if_pos h1, dictFind_cons_pos (e.1, v) _ _ h1]
    · rw [if_neg h1]
      rcases hmem with hmem | hmem
      · exact absurd hmem h1
      · rw [dictFind_cons_neg e _ _ (by simpa using h1)]
        exact ih hmem

/-- The central dict-update fact: looking a key up after `m[k] = v` yields
`v` at `k` and is unchanged elsewhere. -/
theorem dictFind_dictUpd {β : Type} (m : List (JVal × β)) (k k' : JVal) (v : β) :
    dictFind (dictUpd m k v) k' = if k' = k then some v else dictFind m k' := by
  by_cases hmem : m.any (fun e => JVal.beq e.1 k) = true
  · have hupd : dictUpd m k v =
        m.map fun e => if JVal.beq e.1 k then (e.1, v) else e := by
      unfold dictUpd; rw [if_pos hmem]
    rw [hupd]
    by_cases hk : k' = k
    · subst hk; simp [dictFind_upd_map_self m k' v hmem]
    · simp [hk, dictFind_upd_map m k k' v hk]
  · have hmem' : m.any (fun e => JVal.beq e.1 k) = false := by
      simpa using hmem
    have hupd : dictUpd m k v = m ++ [(k, v)] := by
      unfold dictUpd; rw [hmem']; simp
    rw [hupd]
    have hall : ∀ x ∈ m, JVal.beq x.1 k = false := by
      rw [List.any_eq_false] at hmem'
      intro x hx; simpa using hmem' x hx
    by_cases hk : k' = k
    · subst hk
      have hnone : m.find? (fun e => JVal.beq e.1 k') = none := by
        rw [List.find?_eq_none]
        intro e he
        simp [hall e he]
      unfold dictFind
      rw [List.find?_append, hnone]
      simp [JVal.beq_refl]
    · have hlast : JVal.beq k k' = false := beq_false_of_ne (Ne.symm hk)
      unfold dictFind
      rw [List.find?_append]
      rw [if_neg hk]
      cases hmf : m.find? (fun e => JVal.beq e.1 k') <;> simp [Option.or, hlast]

/-- Looking up the result of a keyed left fold of dict updates: the last
record with a matching key wins; a key never written keeps its prior
binding. -/
theorem dictFind_foldl_upd {γ β : Type} (f : γ → JVal) (g : γ → β) :
    ∀ (l : List γ) (m : List (JVal × β)) (k : JVal),
    dictFind (l.foldl (fun m x => dictUpd m (f x) (g x)) m) k =
      (match l.reverse.find? (fun x => decide (f x = k)) with
       | some x => some (g x)
       | none => dictFind m k) := by
  intro l
  induction l with
  | nil => intro m k; rfl
  | cons x t ih =>
    intro m k
    simp only [List.foldl_cons, List.reverse_cons, List.find?_append]
    rw [ih]
    cases hfind : t.reverse.find? (fun x => decide (f x = k)) with
    | some y => simp [Option.or]
    | none =>
      simp only [Option.or, List.find?_cons]
      by_cases hx : f x = k
      · subst hx
        simp [dictFind_dictUpd]
      · have hne : k ≠ f x := fun hc => hx hc.symm
        simp [hx, dictFind_dictUpd, hne]

/-! ### Classification-loop lemmas -/

theorem classifyStep_state (last : List (JVal × List (String × JVal)))
    (acc : RunClass) (i : Issue) :
    (classifyStep last acc i).current_state =
      dictUpd acc.current_state i.key (issueStateEntry i) := by
  unfold classifyStep
  cases h : dictFind last i.key <;> simp [h] <;> split <;> rfl

theorem classifyStep_ns (last : List (JVal × List (String × JVal)))
    (acc : RunClass) (i : Issue) :
    (classifyStep last acc i).new_sprint = acc.new_sprint ++ nsAdd last i := by
  unfold classifyStep nsAdd
  cases h : dictFind last i.key <;> simp [h] <;> split <;> simp

theorem classifyStep_nb (last : List (JVal × List (String × JVal)))
    (acc : RunClass) (i : Issue) :
    (classifyStep last acc i).new_backlog = acc.new_backlog ++ nbAdd last i := by
  unfold classifyStep nbAdd
  cases h : dictFind last i.key <;> simp [h] <;> split <;> simp

theorem classifyStep_ch (last : List (JVal × List (String × JVal)))
    (acc : RunClass) (i : Issue) :
    (classifyStep last acc i).changed = acc.changed ++ chAdd last i := by
  unfold classifyStep chAdd
  cases h : dictFind last i.key <;> simp [h] <;> split <;> simp

theorem runClassify_foldl (last : List (JVal × List (String × JVal))) :
    ∀ (issues : List Issue) (acc : RunClass),
    (issues.foldl (classifyStep last) acc).new_sprint =
        acc.new_sprint ++ issues.flatMap (nsAdd last) ∧
    (issues.foldl (classifyStep last) acc).new_backlog =
        acc.new_backlog ++ issues.flatMap (nbAdd last) ∧
    (issues.foldl (classifyStep last) acc).changed =
        acc.changed ++ issues.flatMap (chAdd last) ∧
    (issues.foldl (classifyStep last) acc).current_state =
        issues.foldl (fun m i => dictUpd m i.key (issueStateEntry i))
          acc.current_state := by
  intro issues
  induction issues with
  | nil => intro acc; simp
  | cons i t ih =>
    intro acc
    simp only [List.foldl_cons, List.flatMap_cons]
    obtain ⟨h1, h2, h3, h4⟩ := ih (classifyStep last acc i)
    refine ⟨?_, ?_, ?_, ?_⟩
    · rw [h1, classifyStep_ns, List.append_assoc]
    · rw [h2, classifyStep_nb, List.append_assoc]
    · rw [h3, classifyStep_ch, List.append_assoc]
    · rw [h4, classifyStep_state]

theorem runClassify_new_sprint (issues : List Issue)
    (last : List (JVal × List (String × JVal))) :
    (runClassify issues last).new_sprint = issues.flatMap (nsAdd last) := by
  have h := (runClassify_foldl last issues ⟨[], [], [], []⟩).1
  simpa [runClassify] using h

theorem runClassify_new_backlog (issues : List Issue)
    (last : List (JVal × List (String × JVal))) :
    (runClassify issues last).new_backlog = issues.flatMap (nbAdd last) := by
  have h := (runClassify_foldl last issues ⟨[], [], [], []⟩).2.1
  simpa [runClassify] using h

theorem runClassify_changed (issues : List Issue)
    (last : List (JVal × List (String × JVal))) :
    (runClassify issues last).changed = issues.flatMap (chAdd last) := by
  have h := (runClassify_foldl last issues ⟨[], [], [], []⟩).2.2.1
  simpa [runClassify] using h

theorem runClassify_state (issues : List Issue)
    (last : List (JVal × List (String × JVal))) :
    (runClassify issues last).current_state =
      issues.foldl (fun m i => dictUpd m i.key (issueStateEntry i)) [] := by
  have h := (runClassify_foldl last issues ⟨[], [], [], []⟩).2.2.2
  simpa [runClassify] using h

/-- Every key seen during the run is written to the new snapshot. -/
theorem runClassify_state_isSome (issues : List Issue)
    (last : List (JVal × List (String × JVal))) (i : Issue) (hi : i ∈ issues) :
    (dictFind (runClassify issues last).current_state i.key).isSome = true := by
  rw [runClassify_state, dictFind_foldl_upd (fun i => i.key) issueStateEntry]
  cases hf : issues.reverse.find? (fun x => decide (x.key = i.key)) with
  | some j => simp
  | none =>
    rw [List.find?_eq_none] at hf
    exact absurd (by simp : decide (i.key = i.key) = true)
      (by simpa using hf i (List.mem_reverse.mpr hi))

/-- With pairwise-distinct keys, the snapshot binds each record's key to
that record's own reduced view. -/
theorem runClassify_state_self (issues : List Issue)
    (last : List (JVal × List (String × JVal)))
    (hnodup : (issues.map Issue.key).Nodup) (i : Issue) (hi : i ∈ issues) :
    dictFind (runClassify issues last).current_state i.key =
      some (issueStateEntry i) := by
  rw [runClassify_state, dictFind_foldl_upd (fun i => i.key) issueStateEntry]
  cases hf : issues.reverse.find? (fun x => decide (x.key = i.key)) with
  | some j =>
    have hjmem : j ∈ issues := List.mem_reverse.mp (List.mem_of_find?_eq_some hf)
    have hjk : j.key = i.key := by simpa using List.find?_some hf
    have : j = i := List.inj_on_of_nodup_map hnodup hjmem hi hjk
    simp [this]
  | none =>
    rw [List.find?_eq_none] at hf
    exact absurd (by simp : decide (i.key = i.key) = true)
      (by simpa using hf i (List.mem_reverse.mpr hi))

/-- A record diffed against its own stored view yields no change
descriptors. -/
theorem detect_changes_self (i : Issue) :
    detect_changes i (issueStateEntry i) = [] := by
  have hst : dget (issueStateEntry i) "status" .jnull = i.status := by
    simp [issueStateEntry, dget, List.lookup]
  have has : dget (issueStateEntry i) "assignee" .jnull = i.assignee := by
    simp [issueStateEntry, dget, List.lookup]
  have hsp : dget (issueStateEntry i) "story_points" .jnull = i.story_points := by
    simp [issueStateEntry, dget, List.lookup]
  have hsr : dget (issueStateEntry i) "sprint" .jnull = i.sprint := by
    simp [issueStateEntry, dget, List.lookup]
  unfold detect_changes statusChanges assigneeChanges spChanges sprintChanges
  rw [hst, has, hsp, hsr]
  simp [pyEq_refl]

/-! ### Chunker lemmas -/

/-- The invariant of the `for block in content:` loop of `_chunk_blocks`:
completed pages are exactly full and start with the header; the open page
starts with the header and respects the cap; each processed block lands in
exactly one page (the counting identity); and once a block has been
processed the open page is strictly longer than the header. -/
theorem chunkFold_inv (C : Nat) (header : List Block)
    (hHC : header.length < C) :
    ∀ (content : List Block) (pages : List (List Block)) (page : List Block),
    (∀ pg ∈ pages, pg.length = C ∧ header <+: pg) →
    header <+: page → page.length ≤ C →
    (∀ pg ∈ (content.foldl (chunkStep C header) (pages, page)).1,
        pg.length = C ∧ header <+: pg) ∧
    header <+: (content.foldl (chunkStep C header) (pages, page)).2 ∧
    (content.foldl (chunkStep C header) (pages, page)).2.length ≤ C ∧
    ((content.foldl (chunkStep C header) (pages, page)).1.length *
          (C - header.length) +
        ((content.foldl (chunkStep C header) (pages, page)).2.length -
          header.length) =
      pages.length * (C - header.length) +
        (page.length - header.length) + content.length) ∧
    (header.length < page.length ∨ content ≠ [] →
      header.length <
        (content.foldl (chunkStep C header) (pages, page)).2.length) := by
  intro content
  induction content with
  | nil =>
    intro pages page hpages hpre hle
    simp only [List.foldl_nil, List.length_nil, Nat.add_zero]
    refine ⟨hpages, hpre, hle, trivial, ?_⟩
    rintro (h | h)
    · exact h
    · exact absurd rfl h
  | cons b rest ih =>
    intro pages page hpages hpre hle
    rw [List.foldl_cons]
    by_cases hfull : page.length + 1 > C
    · have hstep : chunkStep C header (pages, page) b =
          (pages ++ [page], header ++ [b]) := by
        unfold chunkStep; rw [if_pos hfull]
      rw [hstep]
      have hpageC : page.length = C := Nat.le_antisymm hle (by omega)
      have hpages' : ∀ pg ∈ pages ++ [page], pg.length = C ∧ header <+: pg := by
        intro pg hpg
        rcases List.mem_append.mp hpg with h | h
        · exact hpages pg h
        · rcases List.mem_singleton.mp h with rfl
          exact ⟨hpageC, hpre⟩
      have hpre' : header <+: header ++ [b] := ⟨[b], rfl⟩
      have hle' : (header ++ [b]).length ≤ C := by
        simp only [List.length_append, List.length_singleton]; omega
      obtain ⟨c1, c2, c3, c4, c5⟩ := ih (pages ++ [page]) (header ++ [b])
        hpages' hpre' hle'
      refine ⟨c1, c2, c3, ?_, ?_⟩
      · rw [c4]
        simp only [List.length_append, List.length_singleton, List.length_cons,
          List.length_nil, Nat.zero_add]
        rw [Nat.add_mul, Nat.one_mul]
        omega
      · intro _
        apply c5
        left
        simp only [List.length_append, List.length_singleton, List.length_cons,
          List.length_nil]
        omega
    · have hstep : chunkStep C header (pages, page) b =
          (pages, page ++ [b]) := by
        unfold chunkStep; rw [if_neg hfull]
      rw [hstep]
      have hpre' : header <+: page ++ [b] := hpre.trans ⟨[b], rfl⟩
      have hle' : (page ++ [b]).length ≤ C := by
        simp only [List.length_append, List.length_singleton, List.length_cons,
          List.length_nil]
        omega
      obtain ⟨c1, c2, c3, c4, c5⟩ := ih pages (page ++ [b]) hpages hpre' hle'
      have hlenH : header.length ≤ page.length := hpre.length_le
      refine ⟨c1, c2, c3, ?_, ?_⟩
      · rw [c4]
        simp only [List.length_append, List.length_singleton, List.length_cons,
          List.length_nil]
        omega
      · intro _
        apply c5
        left
        simp only [List.length_append, List.length_singleton, List.length_cons,
          List.length_nil]
        omega

/-- `_chunk_blocks` correctness for a non-empty content part: every page is
within the cap and starts with the header, and the page count is
`ceil((L - H) / (C - H))`. -/
theorem chunk_blocks_spec (C : Nat) (blocks header : List Block)
    (hHC : header.length < C) (hlen : header.length < blocks.length) :
    (∀ pg ∈ chunk_blocks C blocks header, pg.length ≤ C ∧ header <+: pg) ∧
    (chunk_blocks C blocks header).length =
      (blocks.length - header.length + (C - header.length) - 1) /
        (C - header.length) := by
  simp only [chunk_blocks]
  obtain ⟨c1, c2, c3, c4, c5⟩ := chunkFold_inv C header hHC
    (blocks.drop header.length) [] header (by simp) List.prefix_rfl
    (Nat.le_of_lt hHC)
  have hcontent : (blocks.drop header.length).length =
      blocks.length - header.length := by simp
  have hcne : blocks.drop header.length ≠ [] := by
    intro h
    have := congrArg List.length h
    simp only [hcontent, List.length_nil] at this
    omega
  have hopen : header.length <
      ((blocks.drop header.length).foldl (chunkStep C header)
        ([], header)).2.length := c5 (Or.inr hcne)
  have hne : ((blocks.drop header.length).foldl (chunkStep C header)
      ([], header)).2.isEmpty = false := by
    rw [List.isEmpty_eq_false_iff_exists_mem]
    have : 0 < ((blocks.drop header.length).foldl (chunkStep C header)
        ([], header)).2.length := by omega
    rcases List.exists_mem_of_length_pos this with ⟨x, hx⟩
    exact ⟨x, hx⟩
  rw [if_neg (by simp [hne])]
  constructor
  · intro pg hpg
    rcases List.mem_append.mp hpg with h | h
    · obtain ⟨h1, h2⟩ := c1 pg h
      exact ⟨Nat.le_of_eq h1, h2⟩
    · rcases List.mem_singleton.mp h with rfl
      exact ⟨c3, c2⟩
  · simp only [List.length_append, List.length_singleton, List.length_cons,
      List.length_nil]
    -- counting: Q·per + r = M with 1 ≤ r ≤ per gives Q + 1 = ⌈M / per⌉
    simp only [List.length_nil, Nat.zero_mul, Nat.zero_add, Nat.sub_self,
      Nat.add_zero] at c4
    rw [hcontent] at c4
    have hper : 0 < C - header.length := by omega
    have hr1 : 1 ≤ ((blocks.drop header.length).foldl (chunkStep C header)
        ([], header)).2.length - header.length := by omega
    have hr2 : ((blocks.drop header.length).foldl (chunkStep C header)
        ([], header)).2.length - header.length ≤ C - header.length := by
      have := c3; omega
    rw [Nat.mul_comm] at c4
    have he : blocks.length - header.length + (C - header.length) - 1 =
        (C - header.length) *
          ((blocks.drop header.length).foldl (chunkStep C header)
            ([], header)).1.length +
        ((((blocks.drop header.length).foldl (chunkStep C header)
            ([], header)).2.length - header.length) - 1 +
          (C - header.length)) := by omega
    rw [he, Nat.mul_add_div hper, Nat.add_div_right _ hper,
      Nat.div_eq_of_lt (by omega)]

theorem get_eq_of_list_eq {α : Type} {l l' : List α} (h : l = l') (i : Nat)
    (hi : i < l.length) : l.get ⟨i, hi⟩ = l'.get ⟨i, h ▸ hi⟩ := by
  subst h; rfl

theorem get_enum_map {α β : Type} (l : List α) (f : Nat × α → β) (i : Nat)
    (h : i < (l.enum.map f).length) :
    (l.enum.map f).get ⟨i, h⟩ =
      f (i, l.get ⟨i, by simpa [List.enum_length] using h⟩) := by
  rw [List.get_eq_getElem, List.getElem_map, List.getElem_enum,
    List.get_eq_getElem]

/-! ### Story-point scan lemmas -/

theorem sp_scan_none : ∀ (fs : List String) (fd : List (String × JVal)),
    (∀ f ∈ fs, posNum (dget fd f .jnull) = false) → sp_scan fs fd = .jnull
  | [], _, _ => rfl
  | f :: rest, fd, h => by
      unfold sp_scan
      rw [if_neg (by simp [h f (by simp)])]
      exact sp_scan_none rest fd (fun g hg => h g (by simp [hg]))

theorem sp_scan_first : ∀ (pre : List String) (f : String) (suf : List String)
    (fd : List (String × JVal)),
    (∀ g ∈ pre, posNum (dget fd g .jnull) = false) →
    posNum (dget fd f .jnull) = true →
    sp_scan (pre ++ f :: suf) fd = spConvert (dget fd f .jnull)
  | [], f, suf, fd, _, hf => by
      unfold sp_scan
      rw [List.nil_append]
      simp only [sp_scan]
      rw [if_pos hf]
  | g :: pre, f, suf, fd, hpre, hf => by
      rw [List.cons_append]
      unfold sp_scan
      rw [if_neg (by simp [hpre g (by simp)])]
      exact sp_scan_first pre f suf fd (fun g hg => hpre g (by simp [hg])) hf

/-! ### Normalization success lemmas -/

theorem displayNameOf_ok (v : JVal)
    (h : (!pyTruthy v ||
      (match v with | .jobj _ => true | _ => false)) = true) :
    ∃ w, displayNameOf v = Except.ok w := by
  unfold displayNameOf
  by_cases hp : pyTruthy v = true
  · rw [if_pos hp]
    simp only [hp, Bool.not_true, Bool.false_or] at h
    cases v <;> simp at h <;> exact ⟨_, rfl⟩
  · rw [if_neg hp]
    exact ⟨.jnull, rfl⟩

theorem extract_epic_ok (fd : List (String × JVal)) (h : epicOk fd = true) :
    ∃ v, extract_epic fd = Except.ok v := by
  unfold epicOk at h
  unfold extract_epic
  by_cases hp : pyTruthy (dget fd "parent" .jnull) = true
  · rw [if_pos hp]
    simp only [hp, Bool.not_true, Bool.false_or] at h
    split at h
    · split at h
      · split at h
        · split
          · exact ⟨_, rfl⟩
          · exact ⟨_, rfl⟩
        · exact absurd h (by simp)
      · exact absurd h (by simp)
    · exact absurd h (by simp)
  · rw [if_neg hp]
    exact ⟨_, rfl⟩

theorem flatMap_eq_nil_of {α β : Type} (l : List α) (f : α → List β)
    (h : ∀ x ∈ l, f x = []) : l.flatMap f = [] := by
  induction l with
  | nil => rfl
  | cons x t ih =>
    rw [List.flatMap_cons, h x (by simp), List.nil_append]
    exact ih (fun y hy => h y (by simp [hy]))

/-- Looking up a key after one query's fill loop: the last well-keyed
record with a matching key wins; otherwise the prior binding persists. -/
theorem dictFind_fill_map : ∀ (issues : List RawIssue)
    (m : List (JVal × RawIssue)) (k : JVal),
    (∀ r ∈ issues, (r.lookup "key").isSome = true) →
    dictFind (fill_map m issues) k =
      (match issues.reverse.find?
          (fun r => decide (r.lookup "key" = some k)) with
       | some r => some r
       | none => dictFind m k)
  | [], m, k, _ => by simp [fill_map]
  | i :: t, m, k, h => by
    have hk : (i.lookup "key").isSome = true := h i (by simp)
    cases hki : i.lookup "key" with
    | none => rw [hki] at hk; simp at hk
    | some ki =>
      unfold fill_map
      rw [hki]
      rw [dictFind_fill_map t (dictUpd m ki i) k
        (fun r hr => h r (by simp [hr]))]
      simp only [List.reverse_cons, List.find?_append]
      cases hfind : t.reverse.find?
          (fun r => decide (r.lookup "key" = some k)) with
      | some y => simp [Option.or]
      | none =>
        simp only [Option.or, List.find?_cons, List.find?_nil]
        rw [hki]
        by_cases hx : ki = k
        · subst hx
          simp [dictFind_dictUpd]
        · have hne : k ≠ ki := fun hc => hx hc.symm
          have hne2 : ¬ (some ki = some k) := by simp [hx]
          simp [hne2, dictFind_dictUpd, hne]

/-! ## Claim theorems -/

/-- C3: For every block sequence of length `L` whose header is its first
`H` blocks, and cap `C` with `H < C` (the source fixes `C = 48`, `H = 3`):
if `L ≤ C` the pagination returns the payload as a single page unchanged
(hence no page-index annotation); if `L > C` it returns exactly
`⌈(L − H) / (C − H)⌉` pages (always more than one), every page holds at
most `C` blocks and begins with the repeated `H`-block header, and the
`i`-th page's top-level text is the original text suffixed with the page
index `i + 1` and the total page count. -/
theorem C3_chunk_pagination (maxBlocks headerCount : Nat) (payload : Payload)
    (hHC : headerCount < maxBlocks) :
    (payload.blocks.length ≤ maxBlocks →
      send_pages maxBlocks headerCount payload = [payload]) ∧
    (maxBlocks < payload.blocks.length →
      (send_pages maxBlocks headerCount payload).length =
        (payload.blocks.length - headerCount + (maxBlocks - headerCount) - 1) /
          (maxBlocks - headerCount) ∧
      1 < (send_pages maxBlocks headerCount payload).length ∧
      (∀ p ∈ send_pages maxBlocks headerCount payload,
        p.blocks.length ≤ maxBlocks ∧
          payload.blocks.take headerCount <+: p.blocks) ∧
      (∀ i, ∀ hi : i < (send_pages maxBlocks headerCount payload).length,
        ((send_pages maxBlocks headerCount payload).get ⟨i, hi⟩).text =
          payload.text ++ " (parte " ++ toString (i + 1) ++ "/" ++
            toString (send_pages maxBlocks headerCount payload).length ++
            ")")) := by
  constructor
  · intro hle
    simp only [send_pages]
    rw [if_pos hle]
  · intro hgt
    have hHlen : headerCount ≤ payload.blocks.length := by omega
    have hlen : (payload.blocks.take headerCount).length = headerCount := by
      simp [List.length_take]
      omega
    obtain ⟨hall, hcount⟩ := chunk_blocks_spec maxBlocks payload.blocks
      (payload.blocks.take headerCount) (by rw [hlen]; exact hHC)
      (by rw [hlen]; omega)
    have hsend : send_pages maxBlocks headerCount payload =
        (chunk_blocks maxBlocks payload.blocks
            (payload.blocks.take headerCount)).enum.map (fun pr =>
          { text := payload.text ++
              (if (chunk_blocks maxBlocks payload.blocks
                    (payload.blocks.take headerCount)).length > 1 then
                " (parte " ++ toString (pr.1 + 1) ++ "/" ++
                  toString (chunk_blocks maxBlocks payload.blocks
                    (payload.blocks.take headerCount)).length ++ ")"
              else ""),
            blocks := pr.2 }) := by
      simp only [send_pages]
      rw [if_neg (by omega)]
    have hpages_len : (send_pages maxBlocks headerCount payload).length =
        (chunk_blocks maxBlocks payload.blocks
          (payload.blocks.take headerCount)).length := by
      rw [hsend]
      simp [List.enum_length]
    have hNformula : (send_pages maxBlocks headerCount payload).length =
        (payload.blocks.length - headerCount + (maxBlocks - headerCount) - 1) /
          (maxBlocks - headerCount) := by
      rw [hpages_len, hcount, hlen]
    have hN2 : 1 < (send_pages maxBlocks headerCount payload).length := by
      rw [hNformula]
      have hper : 0 < maxBlocks - headerCount := by omega
      have h2 : 2 ≤ (payload.blocks.length - headerCount +
          (maxBlocks - headerCount) - 1) / (maxBlocks - headerCount) :=
        (Nat.le_div_iff_mul_le hper).mpr (by omega)
      omega
    refine ⟨hNformula, hN2, ?_, ?_⟩
    · intro p hp
      rw [hsend] at hp
      rcases List.mem_map.mp hp with ⟨pr, hpr, rfl⟩
      have hmem : pr.2 ∈ chunk_blocks maxBlocks payload.blocks
          (payload.blocks.take headerCount) := List.snd_mem_of_mem_enum hpr
      exact hall pr.2 hmem
    · intro i hi
      rw [get_eq_of_list_eq hsend i hi, get_enum_map]
      have hone : (chunk_blocks maxBlocks payload.blocks
          (payload.blocks.take headerCount)).length > 1 := by
        rw [← hpages_len]; exact hN2
      simp [hone, hpages_len, String.append_assoc]

/-- C1 counterexample: `extract_story_points` does **not** return the value
of the first candidate whose key is present regardless of value.  In the
record below the first priority candidate `customfield_10016` is present
with value `0`, yet the function skips it and returns `5`, the value of the
later candidate `customfield_10028`; so the earlier of two exposed
candidates is not chosen when its value is zero. -/
theorem C1_counterexample :
    STORY_POINTS_FIELDS.head? = some "customfield_10016" ∧
    dget [("customfield_10016", JVal.jint 0), ("customfield_10028", JVal.jint 5)]
      "customfield_10016" .jnull = .jint 0 ∧
    extract_story_points
      [("customfield_10016", JVal.jint 0), ("customfield_10028", JVal.jint 5)] =
      .jint 5 ∧
    JVal.jint 5 ≠ JVal.jint 0 := by
  refine ⟨rfl, rfl, rfl, ?_⟩
  simp

/-- C1 (amended): weight resolution returns the converted value of the
first candidate field whose value is a **positive number** (`isinstance`
`int`/`float`, `> 0`), skipping candidates that are missing, non-numeric,
zero or negative; when no candidate holds a positive number it returns
`None`.  In particular, of two candidates with positive numeric values the
earlier in `STORY_POINTS_FIELDS` wins. -/
theorem C1_weight_first_positive (fields : List (String × JVal)) :
    ((∀ f ∈ STORY_POINTS_FIELDS, posNum (dget fields f .jnull) = false) →
      extract_story_points fields = .jnull) ∧
    (∀ pre f suf, STORY_POINTS_FIELDS = pre ++ f :: suf →
      (∀ g ∈ pre, posNum (dget fields g .jnull) = false) →
      posNum (dget fields f .jnull) = true →
      extract_story_points fields = spConvert (dget fields f .jnull)) := by
  constructor
  · intro h
    exact sp_scan_none _ _ h
  · intro pre f suf hsplit hpre hf
    unfold extract_story_points
    rw [hsplit]
    exact sp_scan_first pre f suf fields hpre hf

/-- C1 witness: a record whose first two candidates are absent / zero and
whose third is `3` resolves to `3`; a record with no positive numeric
candidate resolves to `None`. -/
theorem C1_witness :
    extract_story_points [("customfield_10028", JVal.jint 0),
      ("customfield_10034", JVal.jint 3)] = .jint 3 ∧
    extract_story_points [("story_points", JVal.jstr "5")] = .jnull := by
  constructor
  · have h := (C1_weight_first_positive [("customfield_10028", JVal.jint 0),
      ("customfield_10034", JVal.jint 3)]).2
      ["customfield_10016", "customfield_10028"] "customfield_10034"
      ["customfield_10035", "customfield_10040", "story_points"]
      (by decide) (by decide) (by decide)
    rw [show spConvert (dget [("customfield_10028", JVal.jint 0),
      ("customfield_10034", JVal.jint 3)] "customfield_10034" JVal.jnull) =
        JVal.jint 3 from rfl] at h
    exact h
  · exact (C1_weight_first_positive [("story_points", JVal.jstr "5")]).1
      (by decide)

/-- C2 counterexample: the claim fails in two distinct ways.  First,
`normalize_issue` is **not** total on raw records — the record `{}`
(missing the `key` attribute) raises `KeyError` instead of returning a
normalized record.  Second, the non-null guarantee fails even on a
non-raising path: a record whose `fields` carries a **present but null**
`summary` flows straight through `fields.get("summary", "Sem resumo")`
(the default only covers an absent key), producing a record whose title is
`None` without any error — so the amended claim must also require a
present `summary` (and, symmetrically, a present `status.name`) to be
non-null. -/
theorem C2_counterexample :
    normalize_issue "dom" [] = Except.error "KeyError" ∧
    normalize_issue "d"
      [("key", JVal.jstr "K"), ("fields", JVal.jobj [("summary", JVal.jnull)])] =
      Except.ok
        { key := .jstr "K", summary := .jnull, status := .jstr "Desconhecido",
          issuetype := .jstr "", assignee := .jnull, reporter := .jnull,
          story_points := .jnull, sprint := .jnull, epic := .jnull,
          link := "https://d.atlassian.net/browse/K" } :=
  ⟨rfl, rfl⟩

/-- C2 (amended): `normalize_issue` raises on records without a `"key"`
and on malformed field shapes (a non-dict `fields`, a present non-dict
`status` / `issuetype`, a truthy non-dict `assignee` / `reporter` /
`parent` chain), and it passes a present-but-null `summary` or
`status.name` through as a null title / status without raising.  For every
well-formed raw record (`wf_raw`: a non-null `"key"`; dict-shaped
`fields` / `status` / `issuetype` / truthy `assignee` / `reporter` /
`parent` chain; and a non-null `summary` and `status.name` whenever those
keys are present) it returns a record whose `key`, `summary` (title) and
`status` are non-null, with missing fields degraded to `None` or the fixed
placeholders. -/
theorem C2_normalize_wf (domain : String) (issue : List (String × JVal))
    (h : wf_raw issue = true) :
    ∃ rec, normalize_issue domain issue = Except.ok rec ∧
      rec.key ≠ .jnull ∧ rec.summary ≠ .jnull ∧ rec.status ≠ .jnull := by
  unfold wf_raw at h
  simp only [Bool.and_eq_true] at h
  obtain ⟨hkey, hrest⟩ := h
  unfold normalize_issue
  split at hrest
  · rename_i fd heqf
    simp only [Bool.and_eq_true] at hrest
    obtain ⟨⟨⟨⟨⟨hstat, hit⟩, hass⟩, hrep⟩, hsum⟩, hepic⟩ := hrest
    obtain ⟨epicv, heqe⟩ := extract_epic_ok fd hepic
    rw [heqe]
    split at hkey
    · rename_i k heqk
      split at hstat
      · rename_i sfs heqst
        split at hit
        · rename_i itfs heqit
          obtain ⟨aw, heqa⟩ := displayNameOf_ok (dget fd "assignee" .jnull) hass
          obtain ⟨rw_, heqr⟩ := displayNameOf_ok (dget fd "reporter" .jnull) hrep
          simp only [heqk, heqa, heqr]
          refine ⟨_, rfl, ?_, ?_, ?_⟩
          · intro hc
            have hck : k = JVal.jnull := hc
            rw [hck] at hkey
            simp [isNone] at hkey
          · intro hc
            have hcs : dget fd "summary" (JVal.jstr "Sem resumo") =
                JVal.jnull := hc
            rw [hcs] at hsum
            simp [isNone] at hsum
          · intro hc
            have hcs : dget sfs "name" (JVal.jstr "Desconhecido") =
                JVal.jnull := hc
            rw [hcs] at hstat
            simp [isNone] at hstat
        · exact absurd hit (by simp)
      · exact absurd hstat (by simp)
    · exact absurd hkey (by simp)
  · exact absurd hrest (by simp)

/-- C2 witness: a minimal well-formed record normalizes successfully with
non-null key, summary and status. -/
theorem C2_witness :
    wf_raw [("key", JVal.jstr "PROJ-1")] = true ∧
    ∃ rec, normalize_issue "dom" [("key", JVal.jstr "PROJ-1")] =
        Except.ok rec ∧
      rec.key ≠ .jnull ∧ rec.summary ≠ .jnull ∧ rec.status ≠ .jnull :=
  ⟨by decide, C2_normalize_wf "dom" [("key", JVal.jstr "PROJ-1")] (by decide)⟩

/-- C3 witness: a 2-block payload under cap 2 passes through unchanged; a
4-block payload with a 1-block header under cap 2 splits into
`⌈(4−1)/(2−1)⌉ = 3` pages. -/
theorem C3_witness :
    send_pages 2 1 ⟨"T", [Block.bdivider, Block.bdivider]⟩ =
      [⟨"T", [Block.bdivider, Block.bdivider]⟩] ∧
    (send_pages 2 1 ⟨"T", [Block.bdivider, Block.bdivider, Block.bdivider,
      Block.bdivider]⟩).length = (4 - 1 + (2 - 1) - 1) / (2 - 1) :=
  ⟨(C3_chunk_pagination 2 1 ⟨"T", [Block.bdivider, Block.bdivider]⟩
      (by decide)).1 (by decide),
   ((C3_chunk_pagination 2 1 ⟨"T", [Block.bdivider, Block.bdivider,
      Block.bdivider, Block.bdivider]⟩ (by decide)).2 (by decide)).1⟩

/-- C4 counterexample: the per-field diff policy is **not** applied
identically to the status field.  For a record whose previous snapshot
entry is absent entirely, the status descriptor emitted is the transition
form retaining the `?` placeholder for the absent previous value — not a
"set/assigned" form as the claim requires for an absent-previous /
present-current pair. -/
theorem C4_counterexample :
    List.lookup "status" ([] : List (String × JVal)) = none ∧
    detect_changes
      ⟨.jstr "K", .jstr "t", .jstr "Open", .jstr "", .jnull, .jnull, .jnull,
        .jnull, .jnull, "L"⟩ [] =
      ["🔄 *Status:* `?` ➡️ `Open`"] :=
  ⟨rfl, rfl⟩

/-- C4 (amended): descriptors are emitted in the fixed field order status,
owner (assignee), weight (story points), bucket (sprint).  The three-case
set / removed / transition policy holds for owner (presence tested by
truthiness), weight (presence = non-`None`) and bucket (truthiness, with
two unequal falsy values falling through to the transition form); the
status field instead always emits the transition form, rendering an absent
previous status as `?`. -/
theorem C4_diff_policy (current : Issue) (previous : List (String × JVal)) :
    detect_changes current previous =
      statusChanges current previous ++ assigneeChanges current previous ++
        spChanges current previous ++ sprintChanges current previous ∧
    (pyEq current.status (dget previous "status" .jnull) = false →
      statusChanges current previous =
        ["🔄 *Status:* `" ++ pyRepr (dget previous "status" (.jstr "?")) ++
          "` ➡️ `" ++ pyRepr current.status ++ "`"]) ∧
    (pyEq current.status (dget previous "status" .jnull) = true →
      statusChanges current previous = []) ∧
    (pyEq current.story_points (dget previous "story_points" .jnull) = false →
      (dget previous "story_points" .jnull = .jnull →
        spChanges current previous =
          ["🎯 *Story Points definidos:* `" ++ pyRepr current.story_points ++
            "`"]) ∧
      (dget previous "story_points" .jnull ≠ .jnull →
        current.story_points = .jnull →
        spChanges current previous =
          ["🎯 *Story Points removidos* (eram `" ++
            pyRepr (dget previous "story_points" .jnull) ++ "`)"]) ∧
      (dget previous "story_points" .jnull ≠ .jnull →
        current.story_points ≠ .jnull →
        spChanges current previous =
          ["🎯 *Story Points:* `" ++
            pyRepr (dget previous "story_points" .jnull) ++ "` ➡️ `" ++
            pyRepr current.story_points ++ "`"])) ∧
    (pyEq current.assignee (dget previous "assignee" .jnull) = false →
      (pyTruthy (dget previous "assignee" .jnull) = false →
        assigneeChanges current previous =
          ["👤 *Atribuído a:* `" ++ pyRepr current.assignee ++ "`"]) ∧
      (pyTruthy (dget previous "assignee" .jnull) = true →
        pyTruthy current.assignee = false →
        assigneeChanges current previous =
          ["👤 *Responsável removido* (era `" ++
            pyRepr (dget previous "assignee" .jnull) ++ "`)"]) ∧
      (pyTruthy (dget previous "assignee" .jnull) = true →
        pyTruthy current.assignee = true →
        assigneeChanges current previous =
          ["👤 *Responsável:* `" ++ pyRepr (dget previous "assignee" .jnull) ++
            "` ➡️ `" ++ pyRepr current.assignee ++ "`"])) ∧
    (pyEq current.sprint (dget previous "sprint" .jnull) = false →
      (pyTruthy current.sprint = true →
        pyTruthy (dget previous "sprint" .jnull) = false →
        sprintChanges current previous =
          ["📌 *Entrou na sprint:* `" ++ pyRepr current.sprint ++ "`"]) ∧
      (pyTruthy current.sprint = false →
        pyTruthy (dget previous "sprint" .jnull) = true →
        sprintChanges current previous =
          ["📌 *Saiu da sprint* `" ++ pyRepr (dget previous "sprint" .jnull) ++
            "` → backlog"]) ∧
      (pyTruthy current.sprint = pyTruthy (dget previous "sprint" .jnull) →
        sprintChanges current previous =
          ["📌 *Sprint:* `" ++ pyRepr (dget previous "sprint" .jnull) ++
            "` ➡️ `" ++ pyRepr current.sprint ++ "`"])) := by
  refine ⟨rfl, ?_, ?_, ?_, ?_, ?_⟩
  · intro h
    unfold statusChanges
    rw [if_pos (by simp [h])]
  · intro h
    unfold statusChanges
    rw [if_neg (by simp [h])]
  · intro h
    refine ⟨?_, ?_, ?_⟩
    · intro hprev
      unfold spChanges
      rw [if_pos (by simp [h]), if_pos (by simp [hprev, isNone])]
    · intro hprev hcurr
      unfold spChanges
      rw [if_pos (by simp [h]),
        if_neg (by simp [isNone_iff, hprev]),
        if_pos (by simp [hcurr, isNone])]
    · intro hprev hcurr
      unfold spChanges
      rw [if_pos (by simp [h]),
        if_neg (by simp [isNone_iff, hprev]),
        if_neg (by simp [isNone_iff, hcurr])]
  · intro h
    refine ⟨?_, ?_, ?_⟩
    · intro hprev
      unfold assigneeChanges
      rw [if_pos (by simp [h]), if_pos (by simp [hprev])]
    · intro hprev hcurr
      unfold assigneeChanges
      rw [if_pos (by simp [h]), if_neg (by simp [hprev]),
        if_pos (by simp [hcurr])]
    · intro hprev hcurr
      unfold assigneeChanges
      rw [if_pos (by simp [h]), if_neg (by simp [hprev]),
        if_neg (by simp [hcurr])]
  · intro h
    refine ⟨?_, ?_, ?_⟩
    · intro hcurr hprev
      unfold sprintChanges
      rw [if_pos (by simp [h]), if_pos (by simp [hcurr, hprev])]
    · intro hcurr hprev
      unfold sprintChanges
      rw [if_pos (by simp [h]), if_neg (by simp [hcurr]),
        if_pos (by simp [hcurr, hprev])]
    · intro heq
      unfold sprintChanges
      rw [if_pos (by simp [h])]
      cases hc : pyTruthy current.sprint with
      | true =>
        rw [hc] at heq
        rw [if_neg (by simp [hc, ← heq]), if_neg (by simp [hc])]
      | false =>
        rw [hc] at heq
        rw [if_neg (by simp [hc]), if_neg (by simp [← heq])]

/-- C4 witness: a newly defined weight on a record with no previous entry
yields the "set" form for the weight field; the full descriptor list for
that record is the status transition followed by the weight descriptor, in
field order. -/
theorem C4_witness :
    spChanges
      ⟨.jstr "K", .jstr "t", .jstr "Open", .jstr "", .jnull, .jnull,
        .jint 5, .jnull, .jnull, "L"⟩ [] =
      ["🎯 *Story Points definidos:* `5`"] := by
  have h := ((C4_diff_policy
    ⟨.jstr "K", .jstr "t", .jstr "Open", .jstr "", .jnull, .jnull,
      .jint 5, .jnull, .jnull, "L"⟩ []).2.2.2.1 (by decide)).1 rfl
  rw [show pyRepr (Issue.story_points
    ⟨.jstr "K", .jstr "t", .jstr "Open", .jstr "", .jnull, .jnull,
      .jint 5, .jnull, .jnull, "L"⟩) = "5" from rfl] at h
  exact h

/-- C5 counterexample: idempotence fails for an input list that repeats a
key with different field values.  Feeding the snapshot of a run over
`[A(status X), A(status Y)]` back as `previous` and classifying the same
list again puts the first occurrence of `A` into `changed` (its status `X`
differs from the stored last-write view `Y`), so the buckets are not all
empty. -/
theorem C5_counterexample :
    ((runClassify
      [⟨.jstr "A", .jstr "t", .jstr "X", .jstr "", .jnull, .jnull, .jnull,
          .jstr "S", .jnull, "L"⟩,
        ⟨.jstr "A", .jstr "t", .jstr "Y", .jstr "", .jnull, .jnull, .jnull,
          .jstr "S", .jnull, "L"⟩]
      ((runClassify
        [⟨.jstr "A", .jstr "t", .jstr "X", .jstr "", .jnull, .jnull, .jnull,
            .jstr "S", .jnull, "L"⟩,
          ⟨.jstr "A", .jstr "t", .jstr "Y", .jstr "", .jnull, .jnull, .jnull,
            .jstr "S", .jnull, "L"⟩] []).current_state)).changed).length =
      1 := rfl

/-- C5 (amended): classification is idempotent for record lists with
pairwise-distinct keys — the list shape `main` actually produces, since
`get_all_issues` merges records by key.  Feeding the snapshot written by a
run back as the previous snapshot and classifying the same records again
yields empty `new_sprint`, `new_backlog` and `changed` buckets. -/
theorem C5_idempotent (issues : List Issue)
    (last0 : List (JVal × List (String × JVal)))
    (hnodup : (issues.map Issue.key).Nodup) :
    (runClassify issues
        ((runClassify issues last0).current_state)).new_sprint = [] ∧
    (runClassify issues
        ((runClassify issues last0).current_state)).new_backlog = [] ∧
    (runClassify issues
        ((runClassify issues last0).current_state)).changed = [] := by
  have hkey : ∀ i ∈ issues,
      dictFind (runClassify issues last0).current_state i.key =
        some (issueStateEntry i) :=
    fun i hi => runClassify_state_self issues last0 hnodup i hi
  refine ⟨?_, ?_, ?_⟩
  · rw [runClassify_new_sprint]
    apply flatMap_eq_nil_of
    intro i hi
    unfold nsAdd
    rw [hkey i hi]
  · rw [runClassify_new_backlog]
    apply flatMap_eq_nil_of
    intro i hi
    unfold nbAdd
    rw [hkey i hi]
  · rw [runClassify_changed]
    apply flatMap_eq_nil_of
    intro i hi
    unfold chAdd
    rw [hkey i hi]
    simp [detect_changes_self i]

/-- C5 witness: two distinct-keyed records classified against their own
committed snapshot land in no bucket. -/
theorem C5_witness :
    (runClassify
      [⟨.jstr "A", .jstr "t", .jstr "X", .jstr "", .jstr "bob", .jnull,
          .jint 3, .jstr "S", .jnull, "L"⟩,
        ⟨.jstr "B", .jstr "u", .jstr "Y", .jstr "", .jnull, .jnull, .jnull,
          .jnull, .jnull, "L"⟩]
      ((runClassify
        [⟨.jstr "A", .jstr "t", .jstr "X", .jstr "", .jstr "bob", .jnull,
            .jint 3, .jstr "S", .jnull, "L"⟩,
          ⟨.jstr "B", .jstr "u", .jstr "Y", .jstr "", .jnull, .jnull, .jnull,
            .jnull, .jnull, "L"⟩]
        []).current_state)).changed = [] :=
  (C5_idempotent
    [⟨.jstr "A", .jstr "t", .jstr "X", .jstr "", .jstr "bob", .jnull,
        .jint 3, .jstr "S", .jnull, "L"⟩,
      ⟨.jstr "B", .jstr "u", .jstr "Y", .jstr "", .jnull, .jnull, .jnull,
        .jnull, .jnull, "L"⟩]
    [] (by decide)).2.2

/-- C6 counterexample: the empty string is a narrative string distinct from
the failure sentinel, yet the payload builder renders neither a prose block
nor a warning for it — the blocks are identical to the narrative-absent
case, refuting "when it is a non-sentinel string it is rendered as one
prose block". -/
theorem C6_counterexample :
    ("" : String) ≠ GEMINI_ERROR_SENTINEL ∧
    (build_slack_payload "t" [] [] [] [] (some "")).blocks =
      (build_slack_payload "t" [] [] [] [] none).blocks :=
  ⟨by decide, rfl⟩

/-- C6 (amended): the payload is always header ++ narrative ++ listings;
an absent narrative (and likewise the falsy empty string) contributes no
block and no warning; a non-empty non-sentinel narrative contributes
exactly one prose block (truncated with an ellipsis beyond 2900
characters) plus a divider; the sentinel contributes the inline warning;
and the listings after the narrative part are the same whatever the
narrative outcome. -/
theorem C6_narrative (now : String) (ns nb ch : List Item)
    (ne : List Issue) (ai : Option String) :
    (build_slack_payload now ns nb ch ne ai).blocks =
      headerBlocks now (ns.length + nb.length + ch.length + ne.length) ++
        narrativeBlocks ai ++ listingBlocks ns nb ch ne ∧
    narrativeBlocks none = [] ∧
    narrativeBlocks (some "") = [] ∧
    (∀ s : String, s ≠ "" → s ≠ GEMINI_ERROR_SENTINEL →
      narrativeBlocks (some s) =
        [Block.bsection ("🤖 *Análise do Gemini*\n\n" ++
            (if s.length > 2900 then s.take 2900 ++ "…" else s)) none,
          Block.bdivider]) ∧
    narrativeBlocks (some GEMINI_ERROR_SENTINEL) =
      [Block.bcontext
        "_⚠️ Gemini não respondeu (erro na API). As listas abaixo são a referência completa._"] ∧
    (build_slack_payload now ns nb ch ne ai).blocks.drop
        ((headerBlocks now
          (ns.length + nb.length + ch.length + ne.length)).length +
          (narrativeBlocks ai).length) =
      listingBlocks ns nb ch ne := by
  refine ⟨rfl, rfl, rfl, ?_, rfl, ?_⟩
  · intro s hs1 hs2
    simp only [narrativeBlocks]
    rw [if_pos (show s ≠ "" ∧ s ≠ GEMINI_ERROR_SENTINEL from ⟨hs1, hs2⟩)]
  · show (headerBlocks now (ns.length + nb.length + ch.length + ne.length) ++
        narrativeBlocks ai ++ listingBlocks ns nb ch ne).drop
        ((headerBlocks now
          (ns.length + nb.length + ch.length + ne.length)).length +
          (narrativeBlocks ai).length) =
      listingBlocks ns nb ch ne
    rw [← List.length_append, List.drop_left]

/-- C6 witness: a short non-sentinel narrative renders as exactly the
prose block plus divider. -/
theorem C6_witness :
    narrativeBlocks (some "hello") =
      [Block.bsection "🤖 *Análise do Gemini*\n\nhello" none,
        Block.bdivider] := by
  have h := (C6_narrative "t" [] [] [] [] none).2.2.2.1 "hello"
    (by decide) (by decide)
  rw [show (if ("hello" : String).length > 2900 then
      ("hello" : String).take 2900 ++ "…" else "hello") = "hello"
    from rfl] at h
  exact h

/-- C7 counterexample: loading **can** raise.  The `try` block catches only
`json.JSONDecodeError`, so when the snapshot file exists but its bytes are
not valid UTF-8 (here the lone byte `0xff`, which the codec rejects), the
`UnicodeDecodeError` escapes `load_last_state` and propagates to the
caller instead of yielding the empty mapping — refuting "in no case does
loading raise". -/
theorem C7_counterexample :
    load_last_state (some [255])
      (fun _ => Except.error "UnicodeDecodeError")
      (fun _ => Except.ok (.jobj [])) =
      Except.error "UnicodeDecodeError" := rfl

/-- C7 (amended): loading the persisted snapshot is non-fatal for an
absent file and for a file whose decoded text fails to parse as JSON —
both return the empty mapping, and a successfully parsed document is
returned as is — but it is not raise-free: only `json.JSONDecodeError` is
caught, so a decoding failure on an existing file propagates to the
caller. -/
theorem C7_load_state (file : Option (List Nat))
    (utf8Decode : List Nat → Except String String)
    (jsonLoad : String → Except String JVal) :
    (file = none →
      load_last_state file utf8Decode jsonLoad = .ok (.jobj [])) ∧
    (∀ b text e, file = some b → utf8Decode b = .ok text →
      jsonLoad text = .error e →
      load_last_state file utf8Decode jsonLoad = .ok (.jobj [])) ∧
    (∀ b text v, file = some b → utf8Decode b = .ok text →
      jsonLoad text = .ok v →
      load_last_state file utf8Decode jsonLoad = .ok v) ∧
    (∀ b e, file = some b → utf8Decode b = .error e →
      load_last_state file utf8Decode jsonLoad = .error e) := by
  refine ⟨?_, ?_, ?_, ?_⟩
  · intro h
    subst h
    rfl
  · intro b text e h1 h2 h3
    subst h1
    simp only [load_last_state, h2, h3]
  · intro b text v h1 h2 h3
    subst h1
    simp only [load_last_state, h2, h3]
  · intro b e h1 h2
    subst h1
    simp only [load_last_state, h2]

/-- C7 witness: an absent file and a decodable-but-unparsable file both
load as the empty mapping. -/
theorem C7_witness :
    load_last_state none (fun _ => Except.error "boom")
      (fun _ => Except.error "boom") = Except.ok (.jobj []) ∧
    load_last_state (some [110, 111])
      (fun _ => Except.ok "not json")
      (fun _ => Except.error "Expecting value") = Except.ok (.jobj []) :=
  ⟨(C7_load_state none (fun _ => Except.error "boom")
      (fun _ => Except.error "boom")).1 rfl,
   (C7_load_state (some [110, 111]) (fun _ => Except.ok "not json")
      (fun _ => Except.error "Expecting value")).2.1 [110, 111] "not json"
      "Expecting value" rfl rfl rfl⟩

/-- C8 counterexample: a key already inserted from the sprint query **is**
overwritten by a same-keyed record from the later backlog query — the
merged map holds the later record, not the earlier one. -/
theorem C8_counterexample :
    (get_all_issues_model "d" [[("key", JVal.jstr "K"), ("v", JVal.jint 1)]]
        [[("key", JVal.jstr "K"), ("v", JVal.jint 2)]] []).1 =
      [[("key", JVal.jstr "K"), ("v", JVal.jint 2)]] ∧
    [("key", JVal.jstr "K"), ("v", JVal.jint 1)] ≠
      [("key", JVal.jstr "K"), ("v", JVal.jint 2)] := by
  refine ⟨rfl, ?_⟩
  simp

/-- C8 (amended): the sprint and backlog query results are merged by key
with **later writes winning**: for every key, the merged map binds it to
the last record carrying that key across the sprint-then-backlog insertion
order (so a backlog record overwrites a sprint record with the same key);
the epic query is normalized separately and never enters the map. -/
theorem C8_merge_last_wins (sprintQ backlogQ : List RawIssue)
    (h : ∀ r ∈ sprintQ ++ backlogQ, (r.lookup "key").isSome = true) :
    ∀ k, dictFind (fill_map (fill_map [] sprintQ) backlogQ) k =
      (sprintQ ++ backlogQ).reverse.find?
        (fun r => decide (r.lookup "key" = some k)) := by
  intro k
  have hs : ∀ r ∈ sprintQ, (r.lookup "key").isSome = true :=
    fun r hr => h r (by simp [hr])
  have hb : ∀ r ∈ backlogQ, (r.lookup "key").isSome = true :=
    fun r hr => h r (by simp [hr])
  rw [dictFind_fill_map backlogQ _ k hb]
  rw [List.reverse_append, List.find?_append]
  cases hfb : backlogQ.reverse.find?
      (fun r => decide (r.lookup "key" = some k)) with
  | some y => simp [Option.or]
  | none =>
    simp only [Option.or]
    rw [dictFind_fill_map sprintQ [] k hs]
    cases hfs : sprintQ.reverse.find?
        (fun r => decide (r.lookup "key" = some k)) with
    | some y => rfl
    | none => rfl

/-- C8 witness: merging two single-record queries sharing the key `K`
binds `K` to the backlog (later) record. -/
theorem C8_witness :
    dictFind (fill_map (fill_map []
        [[("key", JVal.jstr "K"), ("v", JVal.jint 1)]])
        [[("key", JVal.jstr "K"), ("v", JVal.jint 2)]]) (JVal.jstr "K") =
      some [("key", JVal.jstr "K"), ("v", JVal.jint 2)] := by
  have h := C8_merge_last_wins
    [[("key", JVal.jstr "K"), ("v", JVal.jint 1)]]
    [[("key", JVal.jstr "K"), ("v", JVal.jint 2)]]
    (by decide) (JVal.jstr "K")
  rw [show (([[("key", JVal.jstr "K"), ("v", JVal.jint 1)]] ++
      [[("key", JVal.jstr "K"), ("v", JVal.jint 2)]]).reverse.find?
        (fun r => decide (r.lookup "key" = some (JVal.jstr "K")))) =
      some [("key", JVal.jstr "K"), ("v", JVal.jint 2)] from rfl] at h
  exact h

/-- C9 counterexample: a record absent from the previous snapshot whose
bucket (sprint) is the **non-null** empty string is classified into
`new_unbucketed` (backlog), not `new_in_bucket` — the code tests
truthiness, not nullness. -/
theorem C9_counterexample :
    (⟨.jstr "C", .jstr "t", .jstr "Open", .jstr "", .jnull, .jnull, .jnull,
        .jstr "", .jnull, "L"⟩ : Issue).sprint ≠ .jnull ∧
    (runClassify
      [⟨.jstr "C", .jstr "t", .jstr "Open", .jstr "", .jnull, .jnull, .jnull,
          .jstr "", .jnull, "L"⟩] []).new_sprint = [] ∧
    ((runClassify
      [⟨.jstr "C", .jstr "t", .jstr "Open", .jstr "", .jnull, .jnull, .jnull,
          .jstr "", .jnull, "L"⟩] []).new_backlog).length = 1 := by
  refine ⟨?_, rfl, rfl⟩
  simp

/-- C9 (amended): every record contributes to exactly one of the four
outcomes, with the buckets equal to the per-record contributions in input
order — a key absent from the previous snapshot goes to `new_sprint` when
its bucket is truthy (non-null **and non-empty**) and to `new_backlog`
otherwise; a present key goes to `changed` exactly when some field
differs, and to no output bucket (unchanged) when none does; and every key
seen is written to the new snapshot regardless of its classification. -/
theorem C9_classification (issues : List Issue)
    (last : List (JVal × List (String × JVal))) :
    (runClassify issues last).new_sprint = issues.flatMap (nsAdd last) ∧
    (runClassify issues last).new_backlog = issues.flatMap (nbAdd last) ∧
    (runClassify issues last).changed = issues.flatMap (chAdd last) ∧
    (∀ i, (nsAdd last i).length + (nbAdd last i).length +
      (chAdd last i).length ≤ 1) ∧
    (∀ i, classifyRecord last i = .newInSprint ↔ nsAdd last i ≠ []) ∧
    (∀ i, classifyRecord last i = .newInBacklog ↔ nbAdd last i ≠ []) ∧
    (∀ i, classifyRecord last i = .changedRec ↔ chAdd last i ≠ []) ∧
    (∀ i, classifyRecord last i = .unchangedRec ↔
      nsAdd last i = [] ∧ nbAdd last i = [] ∧ chAdd last i = []) ∧
    (∀ i, dictFind last i.key = none →
      (pyTruthy i.sprint = true → classifyRecord last i = .newInSprint) ∧
      (pyTruthy i.sprint = false → classifyRecord last i = .newInBacklog)) ∧
    (∀ i prev, dictFind last i.key = some prev →
      (detect_changes i prev ≠ [] → classifyRecord last i = .changedRec) ∧
      (detect_changes i prev = [] →
        classifyRecord last i = .unchangedRec)) ∧
    (∀ i ∈ issues,
      (dictFind (runClassify issues last).current_state i.key).isSome =
        true) := by
  refine ⟨runClassify_new_sprint issues last, runClassify_new_backlog issues last,
    runClassify_changed issues last, ?_, ?_, ?_, ?_, ?_, ?_, ?_,
    fun i hi => runClassify_state_isSome issues last i hi⟩
  · intro i
    unfold nsAdd nbAdd chAdd
    cases h : dictFind last i.key <;> simp <;> split <;> simp
  · intro i
    unfold classifyRecord nsAdd
    cases h : dictFind last i.key <;> simp <;> split <;> simp
  · intro i
    unfold classifyRecord nbAdd
    cases h : dictFind last i.key <;> simp <;> split <;> simp
  · intro i
    unfold classifyRecord chAdd
    cases h : dictFind last i.key <;> simp <;> split <;> simp
  · intro i
    unfold classifyRecord nsAdd nbAdd chAdd
    cases h : dictFind last i.key <;> simp <;> split <;> simp
  · intro i hnone
    unfold classifyRecord
    simp only [hnone]
    constructor
    · intro ht
      rw [if_pos ht]
    · intro hf
      rw [if_neg (by simp [hf])]
  · intro i prev hsome
    unfold classifyRecord
    simp only [hsome]
    constructor
    · intro hne
      rw [if_pos (by simpa using hne)]
    · intro heq
      rw [if_neg (by simp [heq])]

/-- C9 witness: a truthy-bucket new record classifies as new-in-sprint, and
its key lands in the snapshot. -/
theorem C9_witness :
    classifyRecord []
      ⟨.jstr "D", .jstr "t", .jstr "Open", .jstr "", .jnull, .jnull, .jnull,
        .jstr "Sprint A", .jnull, "L"⟩ = .newInSprint ∧
    (dictFind (runClassify
      [⟨.jstr "D", .jstr "t", .jstr "Open", .jstr "", .jnull, .jnull, .jnull,
          .jstr "Sprint A", .jnull, "L"⟩] []).current_state
      (JVal.jstr "D")).isSome = true :=
  ⟨((C9_classification
      [⟨.jstr "D", .jstr "t", .jstr "Open", .jstr "", .jnull, .jnull, .jnull,
          .jstr "Sprint A", .jnull, "L"⟩] []).2.2.2.2.2.2.2.2.1
      ⟨.jstr "D", .jstr "t", .jstr "Open", .jstr "", .jnull, .jnull, .jnull,
        .jstr "Sprint A", .jnull, "L"⟩ rfl).1 rfl,
   (C9_classification
      [⟨.jstr "D", .jstr "t", .jstr "Open", .jstr "", .jnull, .jnull, .jnull,
          .jstr "Sprint A", .jnull, "L"⟩] []).2.2.2.2.2.2.2.2.2.2
      ⟨.jstr "D", .jstr "t", .jstr "Open", .jstr "", .jnull, .jnull, .jnull,
        .jstr "Sprint A", .jnull, "L"⟩ (by simp)⟩

/-- C10: when a run classifies no record as new-in-sprint, new-in-backlog
or changed, `main` builds no payload and attempts no delivery — even when
the epic query returned new group entities — and the freshly built
snapshot, containing every key seen, is still the state persisted at run
end. -/
theorem C10_quiet_run (issues : List Issue)
    (last : List (JVal × List (String × JVal))) (new_epics : List Issue)
    (now : String) (ai : Option String)
    (h1 : (runClassify issues last).new_sprint = [])
    (h2 : (runClassify issues last).new_backlog = [])
    (h3 : (runClassify issues last).changed = []) :
    (main_after_classify (runClassify issues last) new_epics now ai).payload =
      none ∧
    (main_after_classify (runClassify issues last) new_epics now
        ai).saved_state = (runClassify issues last).current_state ∧
    (∀ i ∈ issues,
      (dictFind (main_after_classify (runClassify issues last) new_epics now
        ai).saved_state i.key).isSome = true) := by
  have hmain : main_after_classify (runClassify issues last) new_epics now ai =
      ⟨none, (runClassify issues last).current_state⟩ := by
    unfold main_after_classify
    rw [if_pos (by simp [h1, h2, h3])]
  rw [hmain]
  exact ⟨rfl, rfl, fun i hi => runClassify_state_isSome issues last i hi⟩

/-- C10 witness: a run over one unchanged record (its own view fed back as
the previous snapshot) with one new epic builds no payload and persists a
snapshot containing the record's key. -/
theorem C10_witness :
    (main_after_classify (runClassify
      [⟨.jstr "A", .jstr "t", .jstr "X", .jstr "", .jnull, .jnull, .jnull,
          .jnull, .jnull, "L"⟩]
      [(JVal.jstr "A", issueStateEntry
        ⟨.jstr "A", .jstr "t", .jstr "X", .jstr "", .jnull, .jnull, .jnull,
          .jnull, .jnull, "L"⟩)])
      [⟨.jstr "E", .jstr "epic", .jstr "Open", .jstr "Epic", .jnull, .jnull,
          .jnull, .jnull, .jnull, "L"⟩] "now" none).payload = none :=
  (C10_quiet_run
    [⟨.jstr "A", .jstr "t", .jstr "X", .jstr "", .jnull, .jnull, .jnull,
        .jnull, .jnull, "L"⟩]
    [(JVal.jstr "A", issueStateEntry
      ⟨.jstr "A", .jstr "t", .jstr "X", .jstr "", .jnull, .jnull, .jnull,
        .jnull, .jnull, "L"⟩)]
    [⟨.jstr "E", .jstr "epic", .jstr "Open", .jstr "Epic", .jnull, .jnull,
        .jnull, .jnull, .jnull, "L"⟩] "now" none rfl rfl rfl).1

end JiraTracker
